import Mathlib

/-!
  # Session lifecycle and enrollment coordination core

  A shallow embedding of the EduGatorTutoring session lifecycle core: the
  session controller (createSession, deleteSession, removeStudentFromSession,
  unenrollFromSession) and the join-request part of the message controller
  (sendSessionRequest, acceptSessionRequest, denySessionRequest).

  The relational store is a record of tables (lists of rows) plus the
  auto-increment counters; each Express handler becomes a pure function
  `DB → args → Resp × DB` mirroring the source's branch structure, where
  `Resp` carries the HTTP status and the JSON body as a field list.
  `DB.now` stands for the single instant at which one handler runs (both
  `new Date()` and SQL `CURRENT_TIMESTAMP`); locale date rendering
  (`toLocaleDateString` and friends) is abstracted as the raw stored string,
  which no verified property inspects.
-/

namespace EduGator

/-- A row of the `users` table (the columns the core reads). -/
structure User where
  user_id : Nat
  first_name : String
  last_name : String
  role : String
deriving Repr, DecidableEq

/-- A row of the `sessions` table. -/
structure Session where
  session_id : Nat
  tutor_id : Nat
  title : String
  start_time : String
  end_time : String
  session_type : String
  capacity : Int
  location_details : Option String
  status : String
deriving Repr, DecidableEq

/-- A row of the `session_attendees` table (the Enrollment Ledger). -/
structure Attendee where
  session_id : Nat
  user_id : Nat
  enrolled_at : Int
deriving Repr, DecidableEq

/-- The `status` enum of `session_join_requests`. -/
inductive RStatus where
  | pending
  | accepted
  | denied
deriving Repr, DecidableEq

/-- String rendering of a request status, as interpolated into messages. -/
def RStatus.toStr : RStatus → String
  | .pending => "pending"
  | .accepted => "accepted"
  | .denied => "denied"

/-- A row of the `session_join_requests` table. -/
structure JoinRequest where
  request_id : Nat
  session_id : Nat
  requester_user_id : Nat
  tutor_user_id : Nat
  message_id : Nat
  status : RStatus
  responded_at : Option Int
deriving Repr, DecidableEq

/-- A row of the `messages` table. -/
structure MessageRow where
  message_id : Nat
  sender_id : Nat
  receiver_id : Nat
  subject : String
  message_type : String
  message_content : String
deriving Repr, DecidableEq

/-- A row of the `user_messages` table (per-viewer folder and read state). -/
structure UserMessageRow where
  user_id : Nat
  message_id : Nat
  folder : String
  is_read : Nat
deriving Repr, DecidableEq

/-- A row of the `tutor_courses` association table. Rows are assumed to
satisfy referential integrity against `courses`/`departments` (the joins in
the source only drop rows violating it). -/
structure TutorCourse where
  tutor_user_id : Nat
  course_id : Nat
deriving Repr, DecidableEq

/-- A row of the `session_courses` association table. -/
structure SessionCourse where
  session_id : Nat
  course_id : Nat
deriving Repr, DecidableEq

/-- The relational store: the tables the lifecycle core touches, the
auto-increment counters, and the current instant. -/
structure DB where
  users : List User
  tutor_courses : List TutorCourse
  sessions : List Session
  session_courses : List SessionCourse
  session_attendees : List Attendee
  session_join_requests : List JoinRequest
  messages : List MessageRow
  user_messages : List UserMessageRow
  nextSessionId : Nat
  nextRequestId : Nat
  nextMessageId : Nat
  now : Int
deriving Repr, DecidableEq

/-- JSON values, for response bodies. -/
inductive JVal where
  | s (v : String)
  | n (v : Int)
  | b (v : Bool)
  | null
  | obj (fs : List (String × JVal))

/-- An HTTP response: status code plus JSON body as a field list, mirroring
`res.status(code).json({...})` (a bare `res.json` is status 200). -/
structure Resp where
  status : Nat
  body : List (String × JVal)

/-- Field lookup in a JSON body. -/
def getField (body : List (String × JVal)) (k : String) : Option JVal :=
  (body.find? (fun f => f.1 == k)).map (fun f => f.2)

/-- The uniform failure envelope `{success: false, message}`. -/
def jsonFail (code : Nat) (msg : String) : Resp :=
  ⟨code, [("success", JVal.b false), ("message", JVal.s msg)]⟩

/-- Success is a 2xx status (the handlers return 200/201 on success and
4xx/5xx on failure). -/
def Resp.isOk (r : Resp) : Bool := r.status < 300

/-! ## Query helpers (the repeated SQL reads) -/

/-- `SELECT ... FROM users WHERE user_id = ?` (first row). -/
def findUser (db : DB) (uid : Nat) : Option User :=
  db.users.find? (fun u => u.user_id == uid)

/-- `SELECT ... FROM sessions WHERE session_id = ?` (first row). -/
def findSession (db : DB) (sid : Nat) : Option Session :=
  db.sessions.find? (fun s => s.session_id == sid)

/-- `SELECT COUNT(*) FROM session_attendees WHERE session_id = ?`. -/
def enrolledCount (db : DB) (sid : Nat) : Nat :=
  (db.session_attendees.filter (fun a => a.session_id == sid)).length

/-- `SELECT 1 FROM session_attendees WHERE session_id = ? AND user_id = ?`. -/
def isEnrolled (db : DB) (sid uid : Nat) : Bool :=
  db.session_attendees.any (fun a => a.session_id == sid && a.user_id == uid)

/-- `SELECT status FROM session_join_requests WHERE session_id = ? AND
requester_user_id = ?` (first row). -/
def findPairRequest (db : DB) (sid uid : Nat) : Option JoinRequest :=
  db.session_join_requests.find? (fun r => r.session_id == sid && r.requester_user_id == uid)

/-- `SELECT ... FROM session_join_requests WHERE request_id = ?`. -/
def findRequest (db : DB) (rid : Nat) : Option JoinRequest :=
  db.session_join_requests.find? (fun r => r.request_id == rid)

/-- The accept/deny read: the request row inner-joined with its session and
its requesting user (`INNER JOIN sessions`, `INNER JOIN users`): the row
exists only when all three do. -/
def findRequestJoined (db : DB) (rid : Nat) : Option (JoinRequest × Session × User) :=
  match findRequest db rid with
  | none => none
  | some r =>
    match findSession db r.session_id, findUser db r.requester_user_id with
    | some s, some u => some (r, s, u)
    | _, _ => none

/-! ## Write helpers (the repeated SQL writes) -/

/-- `UPDATE session_join_requests SET status = ?, responded_at =
CURRENT_TIMESTAMP WHERE request_id = ?`. -/
def setRequestStatus (db : DB) (rid : Nat) (st : RStatus) : DB :=
  { db with session_join_requests := db.session_join_requests.map (fun r =>
      if r.request_id == rid then { r with status := st, responded_at := some db.now } else r) }

/-- `DELETE FROM session_join_requests WHERE session_id = ? AND
requester_user_id = ?`. -/
def deletePairRequests (db : DB) (sid uid : Nat) : DB :=
  { db with session_join_requests := db.session_join_requests.filter (fun r =>
      !(r.session_id == sid && r.requester_user_id == uid)) }

/-- `UPDATE session_join_requests SET status = 'denied', responded_at =
CURRENT_TIMESTAMP WHERE session_id = ? AND requester_user_id = ? AND
status = 'accepted'` (the downgrade accompanying an enrollment removal). -/
def downgradeAcceptedRequest (db : DB) (sid uid : Nat) : DB :=
  { db with session_join_requests := db.session_join_requests.map (fun r =>
      if r.session_id == sid && r.requester_user_id == uid && r.status == RStatus.accepted
      then { r with status := RStatus.denied, responded_at := some db.now } else r) }

/-- `DELETE FROM session_attendees WHERE session_id = ? AND user_id = ?`. -/
def removeAttendee (db : DB) (sid uid : Nat) : DB :=
  { db with session_attendees := db.session_attendees.filter (fun a =>
      !(a.session_id == sid && a.user_id == uid)) }

/-- The notification primitive, repeated verbatim at every emission site of
the source: one `INSERT INTO messages`, then one `user_messages` row for the
sender (folder 'sent', is_read 1) and one for the receiver (folder 'inbox',
is_read 0). Returns the new message id (`insertId`). -/
def sendPair (db : DB) (senderId receiverId : Nat) (subject mtype content : String) :
    Nat × DB :=
  let mid := db.nextMessageId
  (mid,
    { db with
      messages := db.messages ++ [⟨mid, senderId, receiverId, subject, mtype, content⟩],
      user_messages := db.user_messages ++
        [⟨senderId, mid, "sent", 1⟩, ⟨receiverId, mid, "inbox", 0⟩],
      nextMessageId := mid + 1 })

/-- JS `x || fallback` on a nullable string (empty string is falsy). -/
def jsOr (o : Option String) (d : String) : String :=
  match o with
  | some s => if s = "" then d else s
  | none => d

/-- JS `locationDetails || null` (empty string stored as NULL). -/
def jsOrNull (o : Option String) : Option String :=
  match o with
  | some s => if s = "" then none else some s
  | none => none

/-- JS `String.prototype.trim`, modelled on the character list: strip
whitespace from both ends (executable by the kernel, unlike the builtin
`String.trim`). -/
def jsTrim (s : String) : String :=
  ⟨((s.data.dropWhile Char.isWhitespace).reverse.dropWhile Char.isWhitespace).reverse⟩

/-- Name lookup with the source's fallback (`tutors.length > 0 ? ... : d`). -/
def nameOr (db : DB) (uid : Nat) (d : String) : String :=
  match findUser db uid with
  | some u => u.first_name ++ " " ++ u.last_name
  | none => d

/-- Locale date rendering of a stored datetime, abstracted as the raw
string (`toLocaleDateString('en-US', ...)`). -/
def localeDate (s : String) : String := s

/-- Locale time rendering of a stored datetime, abstracted as the raw
string (`toLocaleTimeString('en-US', ...)`). -/
def localeTime (s : String) : String := s

/-! ## denySessionRequest -/

/-- The denial message body, with the optional trimmed free-text reason. -/
def denyContentOf (title : String) (reason : Option String) : String :=
  let base := "Unfortunately, your request to join \"" ++ title ++ "\" was not accepted.\n\n"
  let base :=
    match reason with
    | some r => if jsTrim r ≠ "" then base ++ "💬 Message from tutor:\n\"" ++ jsTrim r ++ "\"\n\n" else base
    | none => base
  base ++ "Don\x27t be discouraged! Feel free to browse other available sessions or try again later."

/-- `denySessionRequest` of the message controller: authorization and
pending-state checks, then flip the request to denied and notify the
student. `requestIdParam` is `parseInt(req.params.id)` (`none` for NaN). -/
def denySessionRequest (db : DB) (userId : Option Nat) (requestIdParam : Option Nat)
    (reason : Option String) : Resp × DB :=
  match userId with
  | none => (jsonFail 401 "You must be logged in", db)
  | some tutorId =>
    match requestIdParam with
    | none => (jsonFail 400 "Invalid request ID", db)
    | some requestId =>
      match findRequestJoined db requestId with
      | none => (jsonFail 404 "Request not found", db)
      | some (req, sess, student) =>
        if req.tutor_user_id ≠ tutorId then
          (jsonFail 403 "You are not authorized to deny this request", db)
        else if req.status ≠ RStatus.pending then
          (jsonFail 400 ("This request has already been " ++ req.status.toStr), db)
        else
          let db1 := setRequestStatus db requestId RStatus.denied
          let denySubject := "Request Update: " ++ sess.title
          let denyContent := denyContentOf sess.title reason
          let db2 := (sendPair db1 tutorId student.user_id denySubject "normal" denyContent).2
          (⟨200, [("success", JVal.b true),
                  ("message", JVal.s ("Request from " ++ student.first_name ++ " " ++
                    student.last_name ++ " has been denied"))]⟩, db2)

/-! ## acceptSessionRequest -/

/-- The acceptance message body. -/
def acceptContentOf (title fdate ftime : String) (loc : Option String) (tutorName : String) :
    String :=
  "🎉 Great news! Your request to join \"" ++ title ++ "\" has been accepted!\n\n" ++
  "📅 Date: " ++ fdate ++ "\n" ++
  "🕐 Time: " ++ ftime ++ "\n" ++
  "📍 Location: " ++ jsOr loc "TBD" ++ "\n\n" ++
  tutorName ++ " is looking forward to seeing you at the session!"

/-- `acceptSessionRequest` of the message controller: authorization,
pending-state and capacity checks; the already-enrolled edge case updates
the request status and still fails; otherwise flip the request to accepted,
insert the attendee row, and notify the student. -/
def acceptSessionRequest (db : DB) (userId : Option Nat) (requestIdParam : Option Nat) :
    Resp × DB :=
  match userId with
  | none => (jsonFail 401 "You must be logged in", db)
  | some tutorId =>
    match requestIdParam with
    | none => (jsonFail 400 "Invalid request ID", db)
    | some requestId =>
      match findRequestJoined db requestId with
      | none => (jsonFail 404 "Request not found", db)
      | some (req, sess, student) =>
        if req.tutor_user_id ≠ tutorId then
          (jsonFail 403 "You are not authorized to accept this request", db)
        else if req.status ≠ RStatus.pending then
          (jsonFail 400 ("This request has already been " ++ req.status.toStr), db)
        else if (enrolledCount db req.session_id : Int) ≥ sess.capacity then
          (jsonFail 400 "This session is already full. Cannot accept more students.", db)
        else if isEnrolled db req.session_id student.user_id then
          (jsonFail 400 "Student is already enrolled in this session",
            setRequestStatus db requestId RStatus.accepted)
        else
          let db1 := setRequestStatus db requestId RStatus.accepted
          let db2 := { db1 with session_attendees :=
            db1.session_attendees ++ [⟨req.session_id, student.user_id, db1.now⟩] }
          let tutorName := nameOr db2 tutorId "Your tutor"
          let acceptSubject := "Request Accepted: " ++ sess.title
          let acceptContent := acceptContentOf sess.title (localeDate sess.start_time)
            (localeTime sess.start_time) sess.location_details tutorName
          let db3 := (sendPair db2 tutorId student.user_id acceptSubject "normal" acceptContent).2
          (⟨200, [("success", JVal.b true),
                  ("message", JVal.s (student.first_name ++ " " ++ student.last_name ++
                    " has been enrolled in the session"))]⟩, db3)

/-! ## sendSessionRequest (createRequest) -/

/-- The join-request message body, with the optional trimmed student note. -/
def requestContentOf (title fdate ftime : String) (loc : Option String)
    (typeLabel studentName : String) (note : Option String) : String :=
  let base := "📚 Session Request: " ++ title ++ "\n" ++
    "📅 " ++ fdate ++ " at " ++ ftime ++ "\n" ++
    "📍 " ++ jsOr loc "Location TBD" ++ "\n" ++
    "👥 Type: " ++ typeLabel ++ "\n\n" ++
    studentName ++ " would like to join this session."
  match note with
  | some m => if jsTrim m ≠ "" then base ++ "\n\n💬 Message from student:\n\"" ++ jsTrim m ++ "\"" else base
  | none => base

/-- The tail of `sendSessionRequest`, after the duplicate-request branch has
run (source lines 98-191): the already-enrolled and student-lookup checks,
then the notification to the tutor and the new pending request row. -/
def sendSessionRequestRest (db : DB) (studentId sid tid : Nat) (session : Session)
    (message : Option String) : Resp × DB :=
  if isEnrolled db sid studentId then
    (jsonFail 400 "You are already enrolled in this session", db)
  else
    match findUser db studentId with
    | none => (jsonFail 404 "Student not found", db)
    | some student =>
      let studentName := student.first_name ++ " " ++ student.last_name
      let typeLabel := if session.session_type = "one_on_one" then "One-on-One" else "Group"
      let sessionTitle := if session.title = "" then "Tutoring Session" else session.title
      let messageSubject := "Session Request: " ++ sessionTitle
      let messageContent := requestContentOf sessionTitle (localeDate session.start_time)
        (localeTime session.start_time) session.location_details typeLabel studentName message
      let (mid, db1) := sendPair db studentId tid messageSubject "session_join_request" messageContent
      let req : JoinRequest := ⟨db1.nextRequestId, sid, studentId, tid, mid, RStatus.pending, none⟩
      let db2 := { db1 with
        session_join_requests := db1.session_join_requests ++ [req],
        nextRequestId := db1.nextRequestId + 1 }
      (⟨201, [("success", JVal.b true),
              ("message", JVal.s "Your request has been sent to the tutor"),
              ("messageId", JVal.n (mid : Int))]⟩, db2)

/-- `sendSessionRequest` of the message controller (the createRequest
operation): self/capacity/duplicate checks, replacement of a prior denied
request, then `sendSessionRequestRest`. `sessionId` and `tutorId` are the
body fields (`none` when absent). -/
def sendSessionRequest (db : DB) (userId : Option Nat) (sessionId tutorId : Option Nat)
    (message : Option String) : Resp × DB :=
  match userId with
  | none => (jsonFail 401 "You must be logged in to send a request", db)
  | some studentId =>
    match sessionId, tutorId with
    | some sid, some tid =>
      match findSession db sid with
      | none => (jsonFail 404 "Session not found", db)
      | some session =>
        if session.tutor_id ≠ tid then
          (jsonFail 400 "Invalid tutor for this session", db)
        else if studentId = session.tutor_id then
          (jsonFail 400 "You cannot request to join your own session", db)
        else if (enrolledCount db sid : Int) ≥ session.capacity then
          (jsonFail 400 "This session is already full", db)
        else
          match findPairRequest db sid studentId with
          | some er =>
            if er.status = RStatus.pending then
              (jsonFail 400 "You already have a pending request for this session", db)
            else if er.status = RStatus.accepted then
              (jsonFail 400 "You are already enrolled in this session", db)
            else
              sendSessionRequestRest (deletePairRequests db sid studentId)
                studentId sid tid session message
          | none => sendSessionRequestRest db studentId sid tid session message
    | _, _ => (jsonFail 400 "Session ID and Tutor ID are required", db)

/-! ## createSession -/

/-- A date/time input string together with the result of `new Date(raw)`
(`none` when the JS Date is invalid). The JS date library guarantees that
the empty string parses to an invalid date; theorems that need this carry
it as a hypothesis. -/
structure DateInput where
  raw : String
  parsed : Option Int
deriving Repr, DecidableEq

/-- The request body of `createSession`. `capacity` is integer-valued (the
source's `parseInt` on it is the identity there). -/
structure CreateSessionInput where
  title : String
  sessionType : String
  courseIds : List Nat
  startTime : DateInput
  endTime : DateInput
  capacity : Int
  locationDetails : Option String
deriving Repr, DecidableEq

/-- `SELECT user_id FROM users WHERE user_id = ? AND role = "Tutor"` is
nonempty. -/
def tutorRoleOk (db : DB) (uid : Nat) : Bool :=
  db.users.any (fun u => u.user_id == uid && u.role == "Tutor")

/-- The count of `tutor_courses` rows of this tutor whose course is among
`courseIds` (the source's `courseCheck.length`): each taught course in the
list is counted once, so duplicated courseIds also fail the length
comparison below. -/
def taughtMatchCount (db : DB) (uid : Nat) (courseIds : List Nat) : Nat :=
  (db.tutor_courses.filter (fun tc =>
    tc.tutor_user_id == uid && courseIds.contains tc.course_id)).length

/-- `formatDateForMySQL`: replace the `T` separator with a space. -/
def formatDateForMySQL (s : String) : String := s.replace "T" " "

/-- The validation chain of `createSession`, in source order, returning the
failure response of the first violated check (`none` when all pass). The
missing-fields check is JS falsiness: empty title, empty type, empty date
strings and capacity 0 all trip it. -/
def createSessionCheck (db : DB) (userId : Nat) (inp : CreateSessionInput) : Option Resp :=
  if inp.title = "" ∨ inp.sessionType = "" ∨ inp.startTime.raw = "" ∨
      inp.endTime.raw = "" ∨ inp.capacity = 0 then
    some (jsonFail 400 "Missing required fields: title, sessionType, courseIds, startTime, endTime, and capacity are required")
  else if inp.courseIds.isEmpty then
    some (jsonFail 400 "At least one course must be selected")
  else if 150 < (jsTrim inp.title).length then
    some (jsonFail 400 "Session title must be 150 characters or less")
  else if inp.sessionType ≠ "open" ∧ inp.sessionType ≠ "one_on_one" then
    some (jsonFail 400 "Invalid session type. Must be \"open\" or \"one_on_one\"")
  else if ¬ tutorRoleOk db userId then
    some (jsonFail 403 "Only tutors can create sessions")
  else if taughtMatchCount db userId inp.courseIds ≠ inp.courseIds.length then
    some (jsonFail 400 "One or more courses not found or you are not registered to tutor them")
  else
    match inp.startTime.parsed, inp.endTime.parsed with
    | some st, some en =>
      if st ≤ db.now then
        some (jsonFail 400 "Session must be scheduled in the future")
      else if en ≤ st then
        some (jsonFail 400 "End time must be after start time")
      else if inp.capacity < 1 ∨ 50 < inp.capacity then
        some (jsonFail 400 "Capacity must be between 1 and 50")
      else none
    | _, _ => some (jsonFail 400 "Invalid date/time format")

/-- The session row `createSession` inserts after validation passes
(status 'scheduled', capacity forced to 1 for one_on_one). -/
def newSessionRow (db : DB) (uid : Nat) (inp : CreateSessionInput) : Session :=
  let finalCapacity := if inp.sessionType = "one_on_one" then 1 else inp.capacity
  ⟨db.nextSessionId, uid, jsTrim inp.title, formatDateForMySQL inp.startTime.raw,
    formatDateForMySQL inp.endTime.raw, inp.sessionType, finalCapacity,
    jsOrNull inp.locationDetails, "scheduled"⟩

/-- `createSession` of the session controller: the validation chain, then
the session INSERT followed by the `session_courses` INSERT (two separate
queries, no transaction), then the 201 envelope echoing the fields. -/
def createSession (db : DB) (userId : Option Nat) (inp : CreateSessionInput) : Resp × DB :=
  match userId with
  | none => (jsonFail 401 "Not authenticated", db)
  | some uid =>
    match createSessionCheck db uid inp with
    | some r => (r, db)
    | none =>
      let sess := newSessionRow db uid inp
      let sid := db.nextSessionId
      let db1 := { db with sessions := db.sessions ++ [sess], nextSessionId := sid + 1 }
      let db2 := { db1 with session_courses :=
        db1.session_courses ++ inp.courseIds.map (fun c => ⟨sid, c⟩) }
      (⟨201, [("success", JVal.b true),
              ("message", JVal.s "Session created successfully"),
              ("data", JVal.obj [
                ("sessionId", JVal.n (sid : Int)),
                ("title", JVal.s (jsTrim inp.title)),
                ("sessionType", JVal.s inp.sessionType),
                ("startTime", JVal.s inp.startTime.raw),
                ("endTime", JVal.s inp.endTime.raw),
                ("capacity", JVal.n sess.capacity),
                ("locationDetails", match inp.locationDetails with
                  | some l => JVal.s l
                  | none => JVal.null)])]⟩, db2)

/-- The run of `createSession` in which validation passes, the session
INSERT succeeds, and the `session_courses` INSERT then throws: the catch
block returns the generic 500 failure and nothing rolls the session row
back (the two INSERTs are separate queries outside any transaction). -/
def createSessionCourseInsertFails (db : DB) (userId : Option Nat)
    (inp : CreateSessionInput) : Resp × DB :=
  match userId with
  | none => (jsonFail 401 "Not authenticated", db)
  | some uid =>
    match createSessionCheck db uid inp with
    | some r => (r, db)
    | none =>
      let sess := newSessionRow db uid inp
      let db1 := { db with sessions := db.sessions ++ [sess],
                           nextSessionId := db.nextSessionId + 1 }
      (jsonFail 500 "Failed to create session", db1)

/-! ## deleteSession (the cancellation cascade) -/

/-- The cancellation notice sent to a pending requester. -/
def cancelPendingContent (title fdate ftime : String) (loc : Option String) : String :=
  "Your request to join the session \"" ++ title ++
  "\" has been automatically denied because the session has been cancelled.\n\n" ++
  "📅 Date: " ++ fdate ++ "\n" ++
  "🕐 Time: " ++ ftime ++ "\n" ++
  "📍 Location: " ++ jsOr loc "TBD" ++ "\n\n" ++
  "We apologize for any inconvenience. Feel free to browse other available sessions on the platform."

/-- The cancellation notice sent to an enrolled student. -/
def cancelEnrolledContent (title tutorName fdate ftime : String) (loc : Option String) : String :=
  "We regret to inform you that the session \"" ++ title ++
  "\" has been cancelled by " ++ tutorName ++ ".\n\n" ++
  "📅 Date: " ++ fdate ++ "\n" ++
  "🕐 Time: " ++ ftime ++ "\n" ++
  "📍 Location: " ++ jsOr loc "TBD" ++ "\n\n" ++
  "We apologize for any inconvenience this may cause. Please feel free to browse other available sessions on the platform."

/-- One iteration of the pending-requests loop of `deleteSession`: mark the
request denied, then notify the requester. -/
def denyNotifyStep (sess : Session) (tutorId : Nat) (db : DB) (r : JoinRequest) : DB :=
  let db1 := setRequestStatus db r.request_id RStatus.denied
  (sendPair db1 tutorId r.requester_user_id ("Session Cancelled: " ++ sess.title) "normal"
    (cancelPendingContent sess.title (localeDate sess.start_time)
      (localeTime sess.start_time) sess.location_details)).2

/-- One iteration of the enrolled-students loop of `deleteSession`: notify
the attendee of the cancellation. -/
def cancelNotifyStep (sess : Session) (tutorId : Nat) (tutorName : String) (db : DB)
    (a : Attendee) : DB :=
  (sendPair db tutorId a.user_id ("Session Cancelled: " ++ sess.title) "normal"
    (cancelEnrolledContent sess.title tutorName (localeDate sess.start_time)
      (localeTime sess.start_time) sess.location_details)).2

/-- The pending join requests of a session joined with their requesters
(`INNER JOIN users`: a row missing its user is not selected). -/
def pendingJoined (db : DB) (sid : Nat) : List JoinRequest :=
  (db.session_join_requests.filter (fun r =>
    r.session_id == sid && r.status == RStatus.pending)).filter
    (fun r => (findUser db r.requester_user_id).isSome)

/-- The attendees of a session joined with their user rows. -/
def attendeesJoined (db : DB) (sid : Nat) : List Attendee :=
  (db.session_attendees.filter (fun a => a.session_id == sid)).filter
    (fun a => (findUser db a.user_id).isSome)

/-- The four DELETEs closing `deleteSession`: course associations,
attendees, join requests, then the session row itself. -/
def deleteSessionRows (db : DB) (sid : Nat) : DB :=
  { db with
    session_courses := db.session_courses.filter (fun c => !(c.session_id == sid)),
    session_attendees := db.session_attendees.filter (fun a => !(a.session_id == sid)),
    session_join_requests := db.session_join_requests.filter (fun r => !(r.session_id == sid)),
    sessions := db.sessions.filter (fun s => !(s.session_id == sid)) }

/-- The `message` string of a successful `deleteSession` response. -/
def deleteSuccessMessage (notifiedCount : Nat) : String :=
  "Session deleted successfully" ++
  (if 0 < notifiedCount then
    ". " ++ toString notifiedCount ++ " student" ++
    (if notifiedCount ≠ 1 then "s have" else " has") ++ " been notified."
  else "")

/-- `deleteSession` of the session controller: ownership checks, then the
cascade — deny-and-notify every pending request, notify every enrolled
student, and only then delete the related rows and the session. -/
def deleteSession (db : DB) (userId : Option Nat) (sid : Nat) : Resp × DB :=
  match userId with
  | none => (jsonFail 401 "Not authenticated", db)
  | some uid =>
    match findSession db sid with
    | none => (jsonFail 404 "Session not found", db)
    | some session =>
      if session.tutor_id ≠ uid then
        (jsonFail 403 "You can only delete your own sessions", db)
      else
        let tutorName := nameOr db uid "The tutor"
        let pendingRequests := pendingJoined db sid
        let db1 := pendingRequests.foldl (denyNotifyStep session uid) db
        let enrolledStudents := attendeesJoined db1 sid
        let db2 := enrolledStudents.foldl (cancelNotifyStep session uid tutorName) db1
        let db3 := deleteSessionRows db2 sid
        let notifiedCount := pendingRequests.length + enrolledStudents.length
        (⟨200, [("success", JVal.b true),
                ("message", JVal.s (deleteSuccessMessage notifiedCount))]⟩, db3)

/-! ## removeStudentFromSession -/

/-- The removal notice sent to the removed student. -/
def removalContent (title fdate ftime : String) (loc : Option String) (tutorName : String) :
    String :=
  "You have been removed from the session \"" ++ title ++ "\".\n\n" ++
  "📅 Date: " ++ fdate ++ "\n" ++
  "🕐 Time: " ++ ftime ++ "\n" ++
  "📍 Location: " ++ jsOr loc "TBD" ++ "\n\n" ++
  "If you have any questions about this change, please contact " ++ tutorName ++ ".\n\n" ++
  "Feel free to browse other available sessions on the platform."

/-- `removeStudentFromSession` of the session controller: ownership and
existence checks, the attendee DELETE (404 when it affected no row), the
accepted-request downgrade, and the removal notice to the student. -/
def removeStudentFromSession (db : DB) (userId : Option Nat) (sid studentId : Nat) :
    Resp × DB :=
  match userId with
  | none => (jsonFail 401 "Not authenticated", db)
  | some uid =>
    match findSession db sid with
    | none => (jsonFail 404 "Session not found", db)
    | some session =>
      if session.tutor_id ≠ uid then
        (jsonFail 403 "You are not authorized to modify this session", db)
      else
        match findUser db studentId with
        | none => (jsonFail 404 "Student not found", db)
        | some student =>
          if ¬ isEnrolled db sid studentId then
            (jsonFail 404 "Student not found in this session", removeAttendee db sid studentId)
          else
            let db1 := removeAttendee db sid studentId
            let db2 := downgradeAcceptedRequest db1 sid studentId
            let tutorName := nameOr db2 uid "The tutor"
            let db3 := (sendPair db2 uid studentId ("Session Update: " ++ session.title)
              "normal" (removalContent session.title (localeDate session.start_time)
                (localeTime session.start_time) session.location_details tutorName)).2
            (⟨200, [("success", JVal.b true),
                    ("message", JVal.s (student.first_name ++ " " ++ student.last_name ++
                      " has been removed from the session and notified"))]⟩, db3)

/-! ## unenrollFromSession -/

/-- The freed-spot notice sent to the tutor on a student-initiated
unenroll. -/
def unenrollContent (title studentName fdate ftime : String) (loc : Option String) : String :=
  studentName ++ " has unenrolled from your session \"" ++ title ++ "\".\n\n" ++
  "📅 Date: " ++ fdate ++ "\n" ++
  "🕐 Time: " ++ ftime ++ "\n" ++
  "📍 Location: " ++ jsOr loc "TBD" ++ "\n\n" ++
  "A spot is now available in this session."

/-- `unenrollFromSession` of the session controller: the session read
(inner-joined with its tutor's user row), the enrollment check, the
attendee DELETE, the accepted-request downgrade, and the notice to the
tutor. -/
def unenrollFromSession (db : DB) (userId : Option Nat) (sid : Nat) : Resp × DB :=
  match userId with
  | none => (jsonFail 401 "Not authenticated", db)
  | some studentId =>
    match findSession db sid with
    | none => (jsonFail 404 "Session not found", db)
    | some session =>
      match findUser db session.tutor_id with
      | none => (jsonFail 404 "Session not found", db)
      | some _ =>
        if ¬ isEnrolled db sid studentId then
          (jsonFail 400 "You are not enrolled in this session", db)
        else
          let db1 := removeAttendee db sid studentId
          let db2 := downgradeAcceptedRequest db1 sid studentId
          let studentName := nameOr db2 studentId "A student"
          let db3 := (sendPair db2 studentId session.tutor_id
            ("Student Unenrolled: " ++ session.title) "normal"
            (unenrollContent session.title studentName (localeDate session.start_time)
              (localeTime session.start_time) session.location_details)).2
          (⟨200, [("success", JVal.b true),
                  ("message", JVal.s "Successfully unenrolled from the session")]⟩, db3)

/-! ## The lifecycle operations as one step relation -/

/-- An externally triggered operation of the lifecycle core, with the
request data each handler reads. -/
inductive Op where
  | createRequest (userId : Option Nat) (sessionId tutorId : Option Nat) (message : Option String)
  | accept (userId : Option Nat) (requestId : Option Nat)
  | deny (userId : Option Nat) (requestId : Option Nat) (reason : Option String)
  | unenroll (userId : Option Nat) (sessionId : Nat)
  | removeStudent (userId : Option Nat) (sessionId studentId : Nat)
  | cancelSession (userId : Option Nat) (sessionId : Nat)
deriving Repr, DecidableEq

/-- Dispatch an operation to its handler. -/
def applyOp (db : DB) : Op → Resp × DB
  | .createRequest u s t m => sendSessionRequest db u s t m
  | .accept u r => acceptSessionRequest db u r
  | .deny u r reason => denySessionRequest db u r reason
  | .unenroll u s => unenrollFromSession db u s
  | .removeStudent u s st => removeStudentFromSession db u s st
  | .cancelSession u s => deleteSession db u s

/-- The state after a sequence of operations. -/
def runOps (db : DB) (ops : List Op) : DB :=
  ops.foldl (fun d op => (applyOp d op).2) db

/-! ## The notification ledger pattern -/

/-- The `user_messages` rows a batch of message rows files: for each
message, the sender's copy in 'sent' born read and the receiver's copy in
'inbox' born unread. -/
def ledgerRows (ms : List MessageRow) : List UserMessageRow :=
  ms.flatMap (fun m =>
    [⟨m.sender_id, m.message_id, "sent", 1⟩, ⟨m.receiver_id, m.message_id, "inbox", 0⟩])

/-- `db'` extends `db` by a batch of notifications: the messages table grew
by some list of rows and the user_messages table grew by exactly the
sent/inbox pairs of those rows. -/
def MsgExtends (db db' : DB) : Prop :=
  ∃ new, db'.messages = db.messages ++ new ∧
    db'.user_messages = db.user_messages ++ ledgerRows new

theorem ledgerRows_append (a b : List MessageRow) :
    ledgerRows (a ++ b) = ledgerRows a ++ ledgerRows b := by
  simp [ledgerRows]

theorem msgExtends_refl (db : DB) : MsgExtends db db :=
  ⟨[], by simp, by simp [ledgerRows]⟩

theorem msgExtends_of_eq {db db' : DB} (hm : db'.messages = db.messages)
    (hu : db'.user_messages = db.user_messages) : MsgExtends db db' :=
  ⟨[], by simp [hm], by simp [hu, ledgerRows]⟩

theorem msgExtends_trans {a b c : DB} (h1 : MsgExtends a b) (h2 : MsgExtends b c) :
    MsgExtends a c := by
  obtain ⟨n1, hm1, hu1⟩ := h1
  obtain ⟨n2, hm2, hu2⟩ := h2
  exact ⟨n1 ++ n2, by rw [hm2, hm1, List.append_assoc],
    by rw [hu2, hu1, ledgerRows_append, List.append_assoc]⟩

theorem msgExtends_sendPair (db : DB) (s r : Nat) (su t c : String) :
    MsgExtends db (sendPair db s r su t c).2 :=
  ⟨[⟨db.nextMessageId, s, r, su, t, c⟩], by simp [sendPair], by simp [sendPair, ledgerRows]⟩

theorem msgExtends_setRequestStatus (db : DB) (rid : Nat) (st : RStatus) :
    MsgExtends db (setRequestStatus db rid st) :=
  msgExtends_of_eq rfl rfl

theorem msgExtends_foldl {α : Type} (f : DB → α → DB)
    (h : ∀ d a, MsgExtends d (f d a)) :
    ∀ (l : List α) (db : DB), MsgExtends db (l.foldl f db) := by
  intro l
  induction l with
  | nil => intro db; exact msgExtends_refl db
  | cons a rest ih =>
    intro db
    exact msgExtends_trans (h db a) (ih (f db a))

theorem msgExtends_sendPair_of_eq {db dbMid : DB} (hm : dbMid.messages = db.messages)
    (hu : dbMid.user_messages = db.user_messages) (s r : Nat) (su t c : String) :
    MsgExtends db (sendPair dbMid s r su t c).2 :=
  msgExtends_trans (msgExtends_of_eq hm hu) (msgExtends_sendPair dbMid s r su t c)

/-! ## Basic facts about the helpers -/

theorem removeAttendee_of_not_enrolled {db : DB} {sid uid : Nat}
    (h : isEnrolled db sid uid = false) : removeAttendee db sid uid = db := by
  have hfix : db.session_attendees.filter
      (fun a => !(a.session_id == sid && a.user_id == uid)) = db.session_attendees := by
    apply List.filter_eq_self.mpr
    intro a ha
    have hall := List.any_eq_false.mp h a ha
    simp only [Bool.not_eq_true] at hall ⊢
    simp only [Bool.not_eq_true']
    exact hall
  unfold removeAttendee
  rw [hfix]

theorem findRequestJoined_eq_some {db : DB} {rid : Nat} {req : JoinRequest}
    {sess : Session} {stu : User}
    (h : findRequestJoined db rid = some (req, sess, stu)) :
    findRequest db rid = some req ∧ findSession db req.session_id = some sess
      ∧ findUser db req.requester_user_id = some stu := by
  unfold findRequestJoined at h
  cases hq : findRequest db rid with
  | none => rw [hq] at h; cases h
  | some r0 =>
    rw [hq] at h
    dsimp only at h
    cases hs : findSession db r0.session_id with
    | none => rw [hs] at h; dsimp only at h; cases h
    | some s0 =>
      cases hu : findUser db r0.requester_user_id with
      | none => rw [hs, hu] at h; dsimp only at h; cases h
      | some u0 =>
        rw [hs, hu] at h
        dsimp only at h
        have h' : (r0, s0, u0) = (req, sess, stu) := Option.some.inj h
        have e1 : r0 = req := congrArg Prod.fst h'
        have e2 : s0 = sess := congrArg (fun t => t.2.1) h'
        have e3 : u0 = stu := congrArg (fun t => t.2.2) h'
        subst e1
        subst e2
        subst e3
        refine ⟨?_, ?_, ?_⟩ <;> first | rfl | assumption

/-! ## Shape analysis of each operation

For each handler, a disjunction covering every run: either a failure that
left the store untouched, or one of the two failure paths that do write
(with the exact write), or a success with the field-level facts the
invariant proofs consume. -/

theorem acceptSessionRequest_cases (db : DB) (u r : Option Nat) :
    ((acceptSessionRequest db u r).2 = db ∧ (acceptSessionRequest db u r).1.isOk = false)
    ∨ (∃ rid, (acceptSessionRequest db u r).2 = setRequestStatus db rid RStatus.accepted
        ∧ (acceptSessionRequest db u r).1.isOk = false)
    ∨ ((acceptSessionRequest db u r).1.isOk = true
        ∧ (acceptSessionRequest db u r).2.sessions = db.sessions
        ∧ (∃ sid stuId sess, findSession db sid = some sess
            ∧ (enrolledCount db sid : Int) < sess.capacity
            ∧ (acceptSessionRequest db u r).2.session_attendees
                = db.session_attendees ++ [⟨sid, stuId, db.now⟩])
        ∧ MsgExtends db (acceptSessionRequest db u r).2) := by
  obtain (_ | tutorId) := u
  · exact Or.inl ⟨rfl, rfl⟩
  obtain (_ | rid) := r
  · exact Or.inl ⟨rfl, rfl⟩
  cases hfr : findRequestJoined db rid with
  | none =>
    simp only [acceptSessionRequest, hfr]
    exact Or.inl ⟨by first | rfl | trivial, by first | rfl | trivial⟩
  | some trip =>
    obtain ⟨req, sess, stu⟩ := trip
    simp only [acceptSessionRequest, hfr]
    by_cases h1 : req.tutor_user_id ≠ tutorId
    · rw [if_pos h1]
      exact Or.inl ⟨by first | rfl | trivial, by first | rfl | trivial⟩
    rw [if_neg h1]
    by_cases h2 : req.status ≠ RStatus.pending
    · rw [if_pos h2]
      exact Or.inl ⟨by first | rfl | trivial, by first | rfl | trivial⟩
    rw [if_neg h2]
    by_cases h3 : (enrolledCount db req.session_id : Int) ≥ sess.capacity
    · rw [if_pos h3]
      exact Or.inl ⟨by first | rfl | trivial, by first | rfl | trivial⟩
    rw [if_neg h3]
    by_cases h4 : isEnrolled db req.session_id stu.user_id = true
    · rw [if_pos h4]
      exact Or.inr (Or.inl ⟨rid, by first | rfl | trivial, by first | rfl | trivial⟩)
    rw [if_neg h4]
    refine Or.inr (Or.inr ⟨by first | rfl | trivial, by first | rfl | trivial,
      ⟨req.session_id, stu.user_id, sess, (findRequestJoined_eq_some hfr).2.1,
        lt_of_not_ge h3, by first | rfl | trivial⟩, ?_⟩)
    exact msgExtends_sendPair_of_eq rfl rfl _ _ _ _ _

theorem denySessionRequest_cases (db : DB) (u r : Option Nat) (reason : Option String) :
    ((denySessionRequest db u r reason).2 = db
      ∧ (denySessionRequest db u r reason).1.isOk = false)
    ∨ ((denySessionRequest db u r reason).1.isOk = true
        ∧ (denySessionRequest db u r reason).2.sessions = db.sessions
        ∧ (denySessionRequest db u r reason).2.session_attendees = db.session_attendees
        ∧ MsgExtends db (denySessionRequest db u r reason).2) := by
  obtain (_ | tutorId) := u
  · exact Or.inl ⟨rfl, rfl⟩
  obtain (_ | rid) := r
  · exact Or.inl ⟨rfl, rfl⟩
  cases hfr : findRequestJoined db rid with
  | none =>
    simp only [denySessionRequest, hfr]
    exact Or.inl ⟨by first | rfl | trivial, by first | rfl | trivial⟩
  | some trip =>
    obtain ⟨req, sess, stu⟩ := trip
    simp only [denySessionRequest, hfr]
    by_cases h1 : req.tutor_user_id ≠ tutorId
    · rw [if_pos h1]
      exact Or.inl ⟨by first | rfl | trivial, by first | rfl | trivial⟩
    rw [if_neg h1]
    by_cases h2 : req.status ≠ RStatus.pending
    · rw [if_pos h2]
      exact Or.inl ⟨by first | rfl | trivial, by first | rfl | trivial⟩
    rw [if_neg h2]
    refine Or.inr ⟨by first | rfl | trivial, by first | rfl | trivial,
      by first | rfl | trivial, ?_⟩
    exact msgExtends_sendPair_of_eq rfl rfl _ _ _ _ _

theorem sendSessionRequestRest_cases (db : DB) (stuId sid tid : Nat) (sess : Session)
    (m : Option String) :
    ((sendSessionRequestRest db stuId sid tid sess m).2 = db
      ∧ (sendSessionRequestRest db stuId sid tid sess m).1.isOk = false)
    ∨ ((sendSessionRequestRest db stuId sid tid sess m).1.isOk = true
        ∧ (sendSessionRequestRest db stuId sid tid sess m).2.sessions = db.sessions
        ∧ (sendSessionRequestRest db stuId sid tid sess m).2.session_attendees
            = db.session_attendees
        ∧ MsgExtends db (sendSessionRequestRest db stuId sid tid sess m).2) := by
  unfold sendSessionRequestRest
  by_cases h1 : isEnrolled db sid stuId = true
  · rw [if_pos h1]
    exact Or.inl ⟨by first | rfl | trivial, by first | rfl | trivial⟩
  rw [if_neg h1]
  cases hu : findUser db stuId with
  | none => exact Or.inl ⟨by first | rfl | trivial, by first | rfl | trivial⟩
  | some stu =>
    refine Or.inr ⟨by first | rfl | trivial, by first | rfl | trivial,
      by first | rfl | trivial, ?_⟩
    exact ⟨_, rfl, rfl⟩

theorem sendSessionRequest_cases (db : DB) (u s t : Option Nat) (m : Option String) :
    ((sendSessionRequest db u s t m).2 = db ∧ (sendSessionRequest db u s t m).1.isOk = false)
    ∨ (∃ sid stuId, (sendSessionRequest db u s t m).2 = deletePairRequests db sid stuId
        ∧ (sendSessionRequest db u s t m).1.isOk = false)
    ∨ ((sendSessionRequest db u s t m).1.isOk = true
        ∧ (sendSessionRequest db u s t m).2.sessions = db.sessions
        ∧ (sendSessionRequest db u s t m).2.session_attendees = db.session_attendees
        ∧ MsgExtends db (sendSessionRequest db u s t m).2) := by
  obtain (_ | stuId) := u
  · exact Or.inl ⟨rfl, rfl⟩
  obtain (_ | sid) := s
  · obtain (_ | tid) := t
    · exact Or.inl ⟨rfl, rfl⟩
    · exact Or.inl ⟨rfl, rfl⟩
  obtain (_ | tid) := t
  · exact Or.inl ⟨rfl, rfl⟩
  cases hfs : findSession db sid with
  | none =>
    simp only [sendSessionRequest, hfs]
    exact Or.inl ⟨by first | rfl | trivial, by first | rfl | trivial⟩
  | some sess =>
    simp only [sendSessionRequest, hfs]
    by_cases h1 : sess.tutor_id ≠ tid
    · rw [if_pos h1]
      exact Or.inl ⟨by first | rfl | trivial, by first | rfl | trivial⟩
    rw [if_neg h1]
    by_cases h2 : stuId = sess.tutor_id
    · rw [if_pos h2]
      exact Or.inl ⟨by first | rfl | trivial, by first | rfl | trivial⟩
    rw [if_neg h2]
    by_cases h3 : (enrolledCount db sid : Int) ≥ sess.capacity
    · rw [if_pos h3]
      exact Or.inl ⟨by first | rfl | trivial, by first | rfl | trivial⟩
    rw [if_neg h3]
    cases hpr : findPairRequest db sid stuId with
    | none =>
      dsimp only
      rcases sendSessionRequestRest_cases db stuId sid tid sess m with hA | hC
      · exact Or.inl hA
      · exact Or.inr (Or.inr hC)
    | some er =>
      dsimp only
      by_cases h4 : er.status = RStatus.pending
      · rw [if_pos h4]
        exact Or.inl ⟨by first | rfl | trivial, by first | rfl | trivial⟩
      rw [if_neg h4]
      by_cases h5 : er.status = RStatus.accepted
      · rw [if_pos h5]
        exact Or.inl ⟨by first | rfl | trivial, by first | rfl | trivial⟩
      rw [if_neg h5]
      rcases sendSessionRequestRest_cases (deletePairRequests db sid stuId)
          stuId sid tid sess m with hA | hC
      · exact Or.inr (Or.inl ⟨sid, stuId, hA.1, hA.2⟩)
      · refine Or.inr (Or.inr ⟨hC.1, hC.2.1, hC.2.2.1, ?_⟩)
        exact msgExtends_trans (msgExtends_of_eq rfl rfl) hC.2.2.2

theorem unenrollFromSession_cases (db : DB) (u : Option Nat) (sid : Nat) :
    ((unenrollFromSession db u sid).2 = db ∧ (unenrollFromSession db u sid).1.isOk = false)
    ∨ ((unenrollFromSession db u sid).1.isOk = true
        ∧ (unenrollFromSession db u sid).2.sessions = db.sessions
        ∧ (unenrollFromSession db u sid).2.session_attendees.Sublist db.session_attendees
        ∧ MsgExtends db (unenrollFromSession db u sid).2) := by
  obtain (_ | stuId) := u
  · exact Or.inl ⟨rfl, rfl⟩
  cases hfs : findSession db sid with
  | none =>
    simp only [unenrollFromSession, hfs]
    exact Or.inl ⟨by first | rfl | trivial, by first | rfl | trivial⟩
  | some sess =>
    simp only [unenrollFromSession, hfs]
    try dsimp only
    cases htu : findUser db sess.tutor_id with
    | none =>
      exact Or.inl ⟨by first | rfl | trivial, by first | rfl | trivial⟩
    | some tu =>
      try dsimp only
      by_cases h2 : isEnrolled db sid stuId = true
      · rw [if_neg (not_not_intro h2)]
        refine Or.inr ⟨by first | rfl | trivial, by first | rfl | trivial, ?_, ?_⟩
        · exact List.filter_sublist _
        · exact msgExtends_sendPair_of_eq rfl rfl _ _ _ _ _
      · rw [if_pos h2]
        exact Or.inl ⟨by first | rfl | trivial, by first | rfl | trivial⟩

theorem removeStudentFromSession_cases (db : DB) (u : Option Nat) (sid stuId : Nat) :
    ((removeStudentFromSession db u sid stuId).2 = db
      ∧ (removeStudentFromSession db u sid stuId).1.isOk = false)
    ∨ ((removeStudentFromSession db u sid stuId).1.isOk = true
        ∧ (removeStudentFromSession db u sid stuId).2.sessions = db.sessions
        ∧ (removeStudentFromSession db u sid stuId).2.session_attendees.Sublist
            db.session_attendees
        ∧ MsgExtends db (removeStudentFromSession db u sid stuId).2) := by
  obtain (_ | uid) := u
  · exact Or.inl ⟨rfl, rfl⟩
  cases hfs : findSession db sid with
  | none =>
    simp only [removeStudentFromSession, hfs]
    exact Or.inl ⟨by first | rfl | trivial, by first | rfl | trivial⟩
  | some sess =>
    simp only [removeStudentFromSession, hfs]
    try dsimp only
    by_cases h1 : sess.tutor_id ≠ uid
    · rw [if_pos h1]
      exact Or.inl ⟨by first | rfl | trivial, by first | rfl | trivial⟩
    rw [if_neg h1]
    cases hsu : findUser db stuId with
    | none =>
      exact Or.inl ⟨by first | rfl | trivial, by first | rfl | trivial⟩
    | some student =>
      try dsimp only
      by_cases h2 : isEnrolled db sid stuId = true
      · rw [if_neg (not_not_intro h2)]
        refine Or.inr ⟨by first | rfl | trivial, by first | rfl | trivial, ?_, ?_⟩
        · exact List.filter_sublist _
        · exact msgExtends_sendPair_of_eq rfl rfl _ _ _ _ _
      · rw [if_pos h2]
        have henr : isEnrolled db sid stuId = false := by
          revert h2
          cases isEnrolled db sid stuId <;> simp
        refine Or.inl ⟨?_, by first | rfl | trivial⟩
        exact removeAttendee_of_not_enrolled henr

/-! ## The deleteSession cascade: loop lemmas and the success state -/

theorem foldl_fields {α : Type} (f : DB → α → DB)
    (h : ∀ d a, (f d a).sessions = d.sessions ∧ (f d a).session_attendees = d.session_attendees
      ∧ (f d a).users = d.users ∧ (f d a).session_courses = d.session_courses
      ∧ (f d a).now = d.now) :
    ∀ (l : List α) (db : DB),
      (l.foldl f db).sessions = db.sessions
      ∧ (l.foldl f db).session_attendees = db.session_attendees
      ∧ (l.foldl f db).users = db.users
      ∧ (l.foldl f db).session_courses = db.session_courses
      ∧ (l.foldl f db).now = db.now := by
  intro l
  induction l with
  | nil => intro db; exact ⟨rfl, rfl, rfl, rfl, rfl⟩
  | cons a rest ih =>
    intro db
    obtain ⟨h1, h2, h3, h4, h5⟩ := ih (f db a)
    obtain ⟨g1, g2, g3, g4, g5⟩ := h db a
    exact ⟨h1.trans g1, h2.trans g2, h3.trans g3, h4.trans g4, h5.trans g5⟩

theorem denyNotifyStep_fields (sess : Session) (tutorId : Nat) (d : DB) (r : JoinRequest) :
    (denyNotifyStep sess tutorId d r).sessions = d.sessions
    ∧ (denyNotifyStep sess tutorId d r).session_attendees = d.session_attendees
    ∧ (denyNotifyStep sess tutorId d r).users = d.users
    ∧ (denyNotifyStep sess tutorId d r).session_courses = d.session_courses
    ∧ (denyNotifyStep sess tutorId d r).now = d.now :=
  ⟨rfl, rfl, rfl, rfl, rfl⟩

theorem cancelNotifyStep_fields (sess : Session) (tutorId : Nat) (tn : String) (d : DB)
    (a : Attendee) :
    (cancelNotifyStep sess tutorId tn d a).sessions = d.sessions
    ∧ (cancelNotifyStep sess tutorId tn d a).session_attendees = d.session_attendees
    ∧ (cancelNotifyStep sess tutorId tn d a).users = d.users
    ∧ (cancelNotifyStep sess tutorId tn d a).session_courses = d.session_courses
    ∧ (cancelNotifyStep sess tutorId tn d a).now = d.now :=
  ⟨rfl, rfl, rfl, rfl, rfl⟩

theorem msgExtends_denyNotifyStep (sess : Session) (tutorId : Nat) (d : DB)
    (r : JoinRequest) : MsgExtends d (denyNotifyStep sess tutorId d r) := by
  unfold denyNotifyStep
  exact msgExtends_sendPair_of_eq rfl rfl _ _ _ _ _

theorem msgExtends_cancelNotifyStep (sess : Session) (tutorId : Nat) (tn : String) (d : DB)
    (a : Attendee) : MsgExtends d (cancelNotifyStep sess tutorId tn d a) :=
  msgExtends_sendPair d tutorId a.user_id _ _ _

/-- The run of `deleteSession` once the ownership checks pass, written out:
the pending loop, the enrolled loop over the mid state, and the final
deletions, with the response counting both lists. -/
theorem deleteSession_success_state (db : DB) (uid sid : Nat) (sess : Session)
    (hfs : findSession db sid = some sess) (hown : sess.tutor_id = uid) :
    deleteSession db (some uid) sid =
      (⟨200, [("success", JVal.b true),
              ("message", JVal.s (deleteSuccessMessage
                ((pendingJoined db sid).length
                  + (attendeesJoined ((pendingJoined db sid).foldl (denyNotifyStep sess uid) db)
                      sid).length)))]⟩,
       deleteSessionRows
         ((attendeesJoined ((pendingJoined db sid).foldl (denyNotifyStep sess uid) db) sid).foldl
           (cancelNotifyStep sess uid (nameOr db uid "The tutor"))
           ((pendingJoined db sid).foldl (denyNotifyStep sess uid) db)) sid) := by
  simp only [deleteSession, hfs]
  rw [if_neg (by rw [hown]; exact fun hcon => hcon rfl)]

theorem deleteSession_cases (db : DB) (u : Option Nat) (sid : Nat) :
    ((deleteSession db u sid).2 = db ∧ (deleteSession db u sid).1.isOk = false)
    ∨ ((deleteSession db u sid).1.isOk = true
        ∧ (deleteSession db u sid).2.sessions.Sublist db.sessions
        ∧ (deleteSession db u sid).2.session_attendees.Sublist db.session_attendees
        ∧ MsgExtends db (deleteSession db u sid).2) := by
  obtain (_ | uid) := u
  · exact Or.inl ⟨rfl, rfl⟩
  cases hfs : findSession db sid with
  | none =>
    simp only [deleteSession, hfs]
    exact Or.inl ⟨by first | rfl | trivial, by first | rfl | trivial⟩
  | some sess =>
    by_cases h1 : sess.tutor_id = uid
    · rw [deleteSession_success_state db uid sid sess hfs h1]
      have hf1 := foldl_fields (denyNotifyStep sess uid)
        (fun d a => denyNotifyStep_fields sess uid d a) (pendingJoined db sid) db
      have hm1 := msgExtends_foldl (denyNotifyStep sess uid)
        (fun d a => msgExtends_denyNotifyStep sess uid d a) (pendingJoined db sid) db
      have hf2 := foldl_fields (cancelNotifyStep sess uid (nameOr db uid "The tutor"))
        (fun d a => cancelNotifyStep_fields sess uid _ d a)
        (attendeesJoined ((pendingJoined db sid).foldl (denyNotifyStep sess uid) db) sid)
        ((pendingJoined db sid).foldl (denyNotifyStep sess uid) db)
      have hm2 := msgExtends_foldl (cancelNotifyStep sess uid (nameOr db uid "The tutor"))
        (fun d a => msgExtends_cancelNotifyStep sess uid _ d a)
        (attendeesJoined ((pendingJoined db sid).foldl (denyNotifyStep sess uid) db) sid)
        ((pendingJoined db sid).foldl (denyNotifyStep sess uid) db)
      refine Or.inr ⟨by first | rfl | trivial, ?_, ?_, ?_⟩
      · refine (List.filter_sublist _).trans ?_
        rw [hf2.1, hf1.1]
      · refine (List.filter_sublist _).trans ?_
        rw [hf2.2.1, hf1.2.1]
      · exact msgExtends_trans (msgExtends_trans hm1 hm2) (msgExtends_of_eq rfl rfl)
    · simp only [deleteSession, hfs]
      rw [if_pos (by intro hcon; exact h1 hcon)]
      exact Or.inl ⟨by first | rfl | trivial, by first | rfl | trivial⟩

/-! ## The capacity invariant -/

/-- The Enrollment Ledger invariant: no session's attendee count exceeds
its capacity. -/
def CapInvariant (db : DB) : Prop :=
  ∀ s ∈ db.sessions, (enrolledCount db s.session_id : Int) ≤ s.capacity

instance (db : DB) : Decidable (CapInvariant db) := by
  unfold CapInvariant
  exact List.decidableBAll _ _

theorem enrolledCount_le_of_sublist {db db' : DB}
    (h : db'.session_attendees.Sublist db.session_attendees) (sid : Nat) :
    enrolledCount db' sid ≤ enrolledCount db sid :=
  List.Sublist.length_le (h.filter _)

theorem capInvariant_of_sublist {db db' : DB}
    (hs : db'.sessions.Sublist db.sessions)
    (ha : db'.session_attendees.Sublist db.session_attendees)
    (h : CapInvariant db) : CapInvariant db' := by
  intro s hmem
  have h1 := h s (hs.subset hmem)
  have h2 : (enrolledCount db' s.session_id : Int) ≤ enrolledCount db s.session_id := by
    exact_mod_cast enrolledCount_le_of_sublist ha s.session_id
  exact le_trans h2 h1

theorem capInvariant_of_eq {db db' : DB} (hs : db'.sessions = db.sessions)
    (ha : db'.session_attendees = db.session_attendees)
    (h : CapInvariant db) : CapInvariant db' :=
  capInvariant_of_sublist (hs ▸ List.Sublist.refl _) (ha ▸ List.Sublist.refl _) h

theorem enrolledCount_append {db db' : DB} {row : Attendee}
    (h : db'.session_attendees = db.session_attendees ++ [row]) (sid : Nat) :
    enrolledCount db' sid
      = enrolledCount db sid + (if row.session_id == sid then 1 else 0) := by
  unfold enrolledCount
  rw [h, List.filter_append, List.length_append]
  congr 1
  by_cases hr : (row.session_id == sid) = true
  · rw [if_pos hr]
    simp [List.filter, hr]
  · rw [if_neg hr]
    simp only [Bool.not_eq_true] at hr
    simp [List.filter, hr]

theorem findSession_unique {db : DB}
    (hnd : (db.sessions.map Session.session_id).Nodup)
    {sid : Nat} {sess s : Session} (hf : findSession db sid = some sess)
    (hm : s ∈ db.sessions) (hid : s.session_id = sid) : s = sess := by
  have hmem : sess ∈ db.sessions := List.mem_of_find?_eq_some hf
  have hpred := List.find?_some hf
  have hsid : sess.session_id = sid := by simpa using hpred
  exact List.inj_on_of_nodup_map hnd hm hmem (by rw [hid, hsid])

/-- Well-formedness carried through operation sequences: distinct session
ids (the primary key) plus the capacity invariant. -/
def WFCap (db : DB) : Prop :=
  (db.sessions.map Session.session_id).Nodup ∧ CapInvariant db

theorem wfCap_of_eq {db db' : DB} (hs : db'.sessions = db.sessions)
    (ha : db'.session_attendees = db.session_attendees)
    (h : WFCap db) : WFCap db' :=
  ⟨by rw [hs]; exact h.1, capInvariant_of_eq hs ha h.2⟩

theorem wfCap_of_sublist {db db' : DB} (hs : db'.sessions.Sublist db.sessions)
    (ha : db'.session_attendees.Sublist db.session_attendees)
    (h : WFCap db) : WFCap db' :=
  ⟨List.Nodup.sublist (hs.map _) h.1, capInvariant_of_sublist hs ha h.2⟩

theorem wfCap_applyOp (db : DB) (op : Op) (h : WFCap db) : WFCap (applyOp db op).2 := by
  cases op with
  | createRequest u s t m =>
    simp only [applyOp]
    rcases sendSessionRequest_cases db u s t m with hA | hB | hC
    · rw [hA.1]; exact h
    · obtain ⟨sid, stuId, he, _⟩ := hB
      rw [he]
      exact h
    · exact wfCap_of_eq hC.2.1 hC.2.2.1 h
  | deny u r reason =>
    simp only [applyOp]
    rcases denySessionRequest_cases db u r reason with hA | hC
    · rw [hA.1]; exact h
    · exact wfCap_of_eq hC.2.1 hC.2.2.1 h
  | unenroll u sid =>
    simp only [applyOp]
    rcases unenrollFromSession_cases db u sid with hA | hC
    · rw [hA.1]; exact h
    · exact wfCap_of_sublist (hC.2.1 ▸ List.Sublist.refl _) hC.2.2.1 h
  | removeStudent u sid stuId =>
    simp only [applyOp]
    rcases removeStudentFromSession_cases db u sid stuId with hA | hC
    · rw [hA.1]; exact h
    · exact wfCap_of_sublist (hC.2.1 ▸ List.Sublist.refl _) hC.2.2.1 h
  | cancelSession u sid =>
    simp only [applyOp]
    rcases deleteSession_cases db u sid with hA | hC
    · rw [hA.1]; exact h
    · exact wfCap_of_sublist hC.2.1 hC.2.2.1 h
  | accept u r =>
    simp only [applyOp]
    rcases acceptSessionRequest_cases db u r with hA | hB | hC
    · rw [hA.1]; exact h
    · obtain ⟨rid, he, _⟩ := hB
      rw [he]
      exact h
    · obtain ⟨hok, hsessions, ⟨sid0, stuId0, sess0, hfs0, hlt, happ⟩, hmsg⟩ := hC
      refine ⟨by rw [hsessions]; exact h.1, ?_⟩
      intro s hmem
      rw [hsessions] at hmem
      have hcount := enrolledCount_append happ s.session_id
      by_cases hid : s.session_id = sid0
      · have hseq : s = sess0 := findSession_unique h.1 hfs0 hmem hid
        have hr : (({ session_id := sid0, user_id := stuId0, enrolled_at := db.now }
            : Attendee).session_id == s.session_id) = true := by
          simp [hid]
        rw [hcount, if_pos hr]
        subst hseq
        rw [← hid] at hlt
        push_cast
        omega
      · have hr : (({ session_id := sid0, user_id := stuId0, enrolled_at := db.now }
            : Attendee).session_id == s.session_id) = false := by
          simp
          omega
        rw [hcount, if_neg (by rw [hr]; exact Bool.false_ne_true)]
        have := h.2 s hmem
        push_cast
        omega

theorem wfCap_runOps (db : DB) (ops : List Op) (h : WFCap db) : WFCap (runOps db ops) := by
  induction ops generalizing db with
  | nil => exact h
  | cons op rest ih => exact ih _ (wfCap_applyOp db op h)

/-! ## Sample data, for concrete instances -/

/-- A tutor row. -/
def uTara : User := ⟨1, "Tara", "Tuah", "Tutor"⟩

/-- A student row. -/
def uSam : User := ⟨2, "Sam", "Stu", "Student"⟩

/-- A second student row. -/
def uBea : User := ⟨3, "Bea", "Two", "Student"⟩

/-- A scheduled open session of capacity 2 owned by the tutor. -/
def sessAlg : Session :=
  ⟨10, 1, "Algebra", "2026-01-01 10:00:00", "2026-01-01 11:00:00", "open", 2, none, "scheduled"⟩

/-- A store with one session, one pending join request by the first student,
and no attendees. -/
def dbW : DB :=
  ⟨[uTara, uSam, uBea], [⟨1, 100⟩], [sessAlg], [⟨10, 100⟩], [],
   [⟨5, 10, 2, 1, 90, RStatus.pending, none⟩], [], [], 11, 6, 91, 1000⟩

/-- The same store with the requesting student already enrolled while the
request is still pending (the state the already-enrolled edge case of
accept guards against). -/
def dbEdge : DB := { dbW with session_attendees := [⟨10, 2, 500⟩] }

/-- The sample store with the second student enrolled while the first
student's request is still pending: one of each for the cascade. -/
def dbDel : DB := { dbW with session_attendees := [⟨10, 3, 500⟩] }

/-! ## Claims -/

/-- C1: starting from a store whose session ids are distinct and whose
enrollment counts are within capacity, every sequence of lifecycle
operations (createRequest, accept, deny, unenroll, removeStudent,
deleteSession) preserves `enrolledCount ≤ capacity` for every session; in
particular accept answers the capacity error without inserting when the
count has reached capacity, and createRequest answers the session-full
error when the session is full. -/
theorem capacity_never_exceeded (db : DB)
    (hnd : (db.sessions.map Session.session_id).Nodup)
    (hinv : CapInvariant db) :
    (∀ ops : List Op, CapInvariant (runOps db ops))
    ∧ (∀ (u rid : Nat) (req : JoinRequest) (sess : Session) (stu : User),
        findRequestJoined db rid = some (req, sess, stu) →
        req.tutor_user_id = u → req.status = RStatus.pending →
        sess.capacity ≤ (enrolledCount db req.session_id : Int) →
        acceptSessionRequest db (some u) (some rid)
          = (jsonFail 400 "This session is already full. Cannot accept more students.", db))
    ∧ (∀ (stuId sid tid : Nat) (sess : Session) (m : Option String),
        findSession db sid = some sess → sess.tutor_id = tid → stuId ≠ sess.tutor_id →
        sess.capacity ≤ (enrolledCount db sid : Int) →
        sendSessionRequest db (some stuId) (some sid) (some tid) m
          = (jsonFail 400 "This session is already full", db)) := by
  refine ⟨fun ops => (wfCap_runOps db ops ⟨hnd, hinv⟩).2, ?_, ?_⟩
  · intro u rid req sess stu hfr hu hpend hcap
    simp only [acceptSessionRequest, hfr]
    rw [if_neg (by rw [hu]; exact fun hcon => hcon rfl)]
    rw [if_neg (by rw [hpend]; exact fun hcon => hcon rfl)]
    rw [if_pos hcap]
  · intro stuId sid tid sess m hfs htid hself hcap
    simp only [sendSessionRequest, hfs]
    rw [if_neg (by rw [htid]; exact fun hcon => hcon rfl)]
    rw [if_neg hself]
    rw [if_pos hcap]

/-- Witness for C1 at the sample store: a request-accept-request sequence
keeps the count within capacity, and both full-session errors fire on a
concrete full store. -/
theorem capacity_never_exceeded_witness :
    CapInvariant (runOps dbW
      [Op.accept (some 1) (some 5), Op.createRequest (some 3) (some 10) (some 1) none])
    ∧ sendSessionRequest { dbW with session_attendees := [⟨10, 4, 1⟩, ⟨10, 5, 2⟩] }
        (some 3) (some 10) (some 1) none
      = (jsonFail 400 "This session is already full",
         { dbW with session_attendees := [⟨10, 4, 1⟩, ⟨10, 5, 2⟩] }) := by
  constructor
  · exact (capacity_never_exceeded dbW (by decide) (by decide)).1 _
  · exact (capacity_never_exceeded { dbW with session_attendees := [⟨10, 4, 1⟩, ⟨10, 5, 2⟩] }
      (by decide) (by decide)).2.2 3 10 1 sessAlg none (by decide) (by decide)
      (by decide) (by decide)

/-- C3 as stated is false: the already-enrolled edge case of accept flips
the request status to accepted and then returns a failure envelope, so a
business-rule failure does mutate the store. -/
theorem failure_mutates_counterexample :
    (acceptSessionRequest dbEdge (some 1) (some 5)).1.isOk = false
    ∧ (acceptSessionRequest dbEdge (some 1) (some 5)).2 ≠ dbEdge := by
  constructor
  · decide
  · decide

/-- C3 amended: a lifecycle operation that answers a failure envelope left
the store unchanged, except for the two write-then-fail paths: accept's
already-enrolled edge case, which records the request as accepted, and
createRequest's replacement of a prior denied request, which deletes that
request row before the later checks can still fail. -/
theorem failure_no_mutation_amended (db : DB) (op : Op)
    (h : (applyOp db op).1.isOk = false) :
    (applyOp db op).2 = db
    ∨ (∃ rid, (applyOp db op).2 = setRequestStatus db rid RStatus.accepted)
    ∨ (∃ sid uid, (applyOp db op).2 = deletePairRequests db sid uid) := by
  cases op with
  | createRequest u s t m =>
    simp only [applyOp] at h ⊢
    rcases sendSessionRequest_cases db u s t m with hA | hB | hC
    · exact Or.inl hA.1
    · obtain ⟨sid, stuId, he, _⟩ := hB
      exact Or.inr (Or.inr ⟨sid, stuId, he⟩)
    · rw [hC.1] at h
      exact Bool.noConfusion h
  | accept u r =>
    simp only [applyOp] at h ⊢
    rcases acceptSessionRequest_cases db u r with hA | hB | hC
    · exact Or.inl hA.1
    · obtain ⟨rid, he, _⟩ := hB
      exact Or.inr (Or.inl ⟨rid, he⟩)
    · rw [hC.1] at h
      exact Bool.noConfusion h
  | deny u r reason =>
    simp only [applyOp] at h ⊢
    rcases denySessionRequest_cases db u r reason with hA | hC
    · exact Or.inl hA.1
    · rw [hC.1] at h
      exact Bool.noConfusion h
  | unenroll u sid =>
    simp only [applyOp] at h ⊢
    rcases unenrollFromSession_cases db u sid with hA | hC
    · exact Or.inl hA.1
    · rw [hC.1] at h
      exact Bool.noConfusion h
  | removeStudent u sid stuId =>
    simp only [applyOp] at h ⊢
    rcases removeStudentFromSession_cases db u sid stuId with hA | hC
    · exact Or.inl hA.1
    · rw [hC.1] at h
      exact Bool.noConfusion h
  | cancelSession u sid =>
    simp only [applyOp] at h ⊢
    rcases deleteSession_cases db u sid with hA | hC
    · exact Or.inl hA.1
    · rw [hC.1] at h
      exact Bool.noConfusion h

/-- Witness for the amended C3: a concrete failing accept (wrong tutor)
leaves the sample store unchanged. -/
theorem failure_no_mutation_amended_witness :
    (applyOp dbW (Op.accept (some 3) (some 5))).2 = dbW
    ∨ (∃ rid, (applyOp dbW (Op.accept (some 3) (some 5))).2
        = setRequestStatus dbW rid RStatus.accepted)
    ∨ (∃ sid uid, (applyOp dbW (Op.accept (some 3) (some 5))).2
        = deletePairRequests dbW sid uid) :=
  failure_no_mutation_amended dbW (Op.accept (some 3) (some 5)) (by decide)

/-- C10: every lifecycle operation extends the messages table by a batch of
rows and the user_messages table by exactly the two per-message copies: the
sender's in 'sent' born read (`is_read = 1`) and the receiver's in 'inbox'
born unread (`is_read = 0`). -/
theorem notification_ledger_pairs (db : DB) (op : Op) :
    MsgExtends db (applyOp db op).2 := by
  cases op with
  | createRequest u s t m =>
    simp only [applyOp]
    rcases sendSessionRequest_cases db u s t m with hA | hB | hC
    · rw [hA.1]; exact msgExtends_refl db
    · obtain ⟨sid, stuId, he, _⟩ := hB
      rw [he]
      exact msgExtends_of_eq rfl rfl
    · exact hC.2.2.2
  | accept u r =>
    simp only [applyOp]
    rcases acceptSessionRequest_cases db u r with hA | hB | hC
    · rw [hA.1]; exact msgExtends_refl db
    · obtain ⟨rid, he, _⟩ := hB
      rw [he]
      exact msgExtends_of_eq rfl rfl
    · exact hC.2.2.2
  | deny u r reason =>
    simp only [applyOp]
    rcases denySessionRequest_cases db u r reason with hA | hC
    · rw [hA.1]; exact msgExtends_refl db
    · exact hC.2.2.2
  | unenroll u sid =>
    simp only [applyOp]
    rcases unenrollFromSession_cases db u sid with hA | hC
    · rw [hA.1]; exact msgExtends_refl db
    · exact hC.2.2.2
  | removeStudent u sid stuId =>
    simp only [applyOp]
    rcases removeStudentFromSession_cases db u sid stuId with hA | hC
    · rw [hA.1]; exact msgExtends_refl db
    · exact hC.2.2.2
  | cancelSession u sid =>
    simp only [applyOp]
    rcases deleteSession_cases db u sid with hA | hC
    · rw [hA.1]; exact msgExtends_refl db
    · exact hC.2.2.2

/-- C4: accept answers the authorization error when the caller is not the
owner of the request's session (the denormalized request tutor matching the
session owner), the invalid-state error when the request is not pending,
the capacity error when the count has reached capacity; and every
successful accept flips the request to accepted with the response
timestamp, appends exactly one attendee row for (session, student), and
appends exactly one message to the student. -/
theorem accept_request_correct (db : DB) (u rid : Nat) (req : JoinRequest)
    (sess : Session) (stu : User)
    (hfr : findRequestJoined db rid = some (req, sess, stu)) :
    (req.tutor_user_id = sess.tutor_id → sess.tutor_id ≠ u →
      acceptSessionRequest db (some u) (some rid)
        = (jsonFail 403 "You are not authorized to accept this request", db))
    ∧ (req.tutor_user_id = u → req.status ≠ RStatus.pending →
      acceptSessionRequest db (some u) (some rid)
        = (jsonFail 400 ("This request has already been " ++ req.status.toStr), db))
    ∧ (req.tutor_user_id = u → req.status = RStatus.pending →
      sess.capacity ≤ (enrolledCount db req.session_id : Int) →
      acceptSessionRequest db (some u) (some rid)
        = (jsonFail 400 "This session is already full. Cannot accept more students.", db))
    ∧ ((acceptSessionRequest db (some u) (some rid)).1.isOk = true →
      (acceptSessionRequest db (some u) (some rid)).2.session_join_requests
          = db.session_join_requests.map (fun r =>
              if r.request_id == rid
              then { r with status := RStatus.accepted, responded_at := some db.now }
              else r)
      ∧ (acceptSessionRequest db (some u) (some rid)).2.session_attendees
          = db.session_attendees ++ [⟨req.session_id, stu.user_id, db.now⟩]
      ∧ (∃ msg, (acceptSessionRequest db (some u) (some rid)).2.messages
            = db.messages ++ [msg]
          ∧ msg.sender_id = u ∧ msg.receiver_id = stu.user_id)) := by
  refine ⟨?_, ?_, ?_, ?_⟩
  · intro hden hne
    simp only [acceptSessionRequest, hfr]
    rw [if_pos (by rw [hden]; exact hne)]
  · intro hu hnp
    simp only [acceptSessionRequest, hfr]
    rw [if_neg (by rw [hu]; exact fun hcon => hcon rfl)]
    rw [if_pos hnp]
  · intro hu hpend hcap
    simp only [acceptSessionRequest, hfr]
    rw [if_neg (by rw [hu]; exact fun hcon => hcon rfl)]
    rw [if_neg (by rw [hpend]; exact fun hcon => hcon rfl)]
    rw [if_pos hcap]
  · intro hok
    simp only [acceptSessionRequest, hfr] at hok ⊢
    by_cases h1 : req.tutor_user_id ≠ u
    · rw [if_pos h1] at hok
      exact Bool.noConfusion hok
    rw [if_neg h1] at hok ⊢
    by_cases h2 : req.status ≠ RStatus.pending
    · rw [if_pos h2] at hok
      exact Bool.noConfusion hok
    rw [if_neg h2] at hok ⊢
    by_cases h3 : (enrolledCount db req.session_id : Int) ≥ sess.capacity
    · rw [if_pos h3] at hok
      exact Bool.noConfusion hok
    rw [if_neg h3] at hok ⊢
    by_cases h4 : isEnrolled db req.session_id stu.user_id = true
    · rw [if_pos h4] at hok
      exact Bool.noConfusion hok
    rw [if_neg h4] at hok ⊢
    exact ⟨rfl, rfl, ⟨_, rfl, rfl, rfl⟩⟩

/-- Witness for C4: on the sample store, accept by a non-owner answers the
authorization error. -/
theorem accept_request_correct_witness :
    acceptSessionRequest dbW (some 3) (some 5)
      = (jsonFail 403 "You are not authorized to accept this request", dbW) :=
  (accept_request_correct dbW 3 5 ⟨5, 10, 2, 1, 90, RStatus.pending, none⟩ sessAlg uSam
    (by decide)).1 (by decide) (by decide)

/-- C7: a student-initiated unenroll fails when the student has no
enrollment row, and every successful unenroll deletes the (session,
student) attendee row, downgrades an accepted request for the pair to
denied with a response timestamp, and appends exactly one message whose
receiver is the session's tutor. -/
theorem unenroll_correct (db : DB) (stuId sid : Nat) (sess : Session) (tu : User)
    (hfs : findSession db sid = some sess) (htu : findUser db sess.tutor_id = some tu) :
    (isEnrolled db sid stuId = false →
      unenrollFromSession db (some stuId) sid
        = (jsonFail 400 "You are not enrolled in this session", db))
    ∧ ((unenrollFromSession db (some stuId) sid).1.isOk = true →
      (unenrollFromSession db (some stuId) sid).2.session_attendees
          = db.session_attendees.filter
              (fun a => !(a.session_id == sid && a.user_id == stuId))
      ∧ (unenrollFromSession db (some stuId) sid).2.session_join_requests
          = db.session_join_requests.map (fun r =>
              if r.session_id == sid && r.requester_user_id == stuId
                  && r.status == RStatus.accepted
              then { r with status := RStatus.denied, responded_at := some db.now } else r)
      ∧ (∃ msg, (unenrollFromSession db (some stuId) sid).2.messages = db.messages ++ [msg]
          ∧ msg.sender_id = stuId ∧ msg.receiver_id = sess.tutor_id)) := by
  constructor
  · intro hne
    simp only [unenrollFromSession, hfs, htu]
    rw [if_pos (by rw [hne]; exact Bool.false_ne_true)]
  · intro hok
    simp only [unenrollFromSession, hfs, htu] at hok ⊢
    by_cases h2 : isEnrolled db sid stuId = true
    · rw [if_neg (not_not_intro h2)] at hok ⊢
      exact ⟨rfl, rfl, ⟨_, rfl, rfl, rfl⟩⟩
    · rw [if_pos h2] at hok
      exact Bool.noConfusion hok

/-- Witness for C7: on the sample store (nobody enrolled), unenroll by the
requesting student answers the not-enrolled failure without touching the
store. -/
theorem unenroll_correct_witness :
    unenrollFromSession dbW (some 2) 10
      = (jsonFail 400 "You are not enrolled in this session", dbW) :=
  (unenroll_correct dbW 2 10 sessAlg uTara (by decide) (by decide)).1 (by decide)

/-- C8: every successful deny flips the request to denied with a response
timestamp, appends exactly one message to the student (whose body carries
the trimmed free-text reason when one is given), and leaves the attendee
table untouched. -/
theorem deny_request_correct (db : DB) (u rid : Nat) (req : JoinRequest)
    (sess : Session) (stu : User) (reason : Option String)
    (hfr : findRequestJoined db rid = some (req, sess, stu))
    (hok : (denySessionRequest db (some u) (some rid) reason).1.isOk = true) :
    (denySessionRequest db (some u) (some rid) reason).2.session_join_requests
        = db.session_join_requests.map (fun r =>
            if r.request_id == rid
            then { r with status := RStatus.denied, responded_at := some db.now }
            else r)
    ∧ (∃ msg, (denySessionRequest db (some u) (some rid) reason).2.messages
          = db.messages ++ [msg]
        ∧ msg.sender_id = u ∧ msg.receiver_id = stu.user_id
        ∧ (∀ rt, reason = some rt → jsTrim rt ≠ "" →
            ∃ pre post, msg.message_content = pre ++ (jsTrim rt ++ post)))
    ∧ (denySessionRequest db (some u) (some rid) reason).2.session_attendees
        = db.session_attendees := by
  simp only [denySessionRequest, hfr] at hok ⊢
  by_cases h1 : req.tutor_user_id ≠ u
  · rw [if_pos h1] at hok
    exact Bool.noConfusion hok
  rw [if_neg h1] at hok ⊢
  by_cases h2 : req.status ≠ RStatus.pending
  · rw [if_pos h2] at hok
    exact Bool.noConfusion hok
  rw [if_neg h2] at hok ⊢
  refine ⟨rfl, ⟨_, rfl, rfl, rfl, ?_⟩, rfl⟩
  intro rt hrt htrim
  subst hrt
  unfold denyContentOf
  dsimp only
  rw [if_pos htrim]
  refine ⟨"Unfortunately, your request to join \"" ++ sess.title
      ++ "\" was not accepted.\n\n" ++ "💬 Message from tutor:\n\"",
    "\"\n\n" ++ "Don\x27t be discouraged! Feel free to browse other available sessions or try again later.", ?_⟩
  simp [String.append_assoc]

/-! ## The cascade in detail (towards C2) -/

theorem foldl_recv {α : Type} (f : DB → α → DB) (g : α → Nat)
    (hstep : ∀ d a, (f d a).messages.map MessageRow.receiver_id
        = d.messages.map MessageRow.receiver_id ++ [g a]) :
    ∀ (l : List α) (d : DB),
      (l.foldl f d).messages.map MessageRow.receiver_id
        = d.messages.map MessageRow.receiver_id ++ l.map g := by
  intro l
  induction l with
  | nil => intro d; simp
  | cons a rest ih =>
    intro d
    rw [List.foldl_cons, ih, hstep, List.map_cons, List.append_assoc,
      List.singleton_append]

theorem denyNotifyStep_recv (sess : Session) (tid : Nat) (d : DB) (r : JoinRequest) :
    (denyNotifyStep sess tid d r).messages.map MessageRow.receiver_id
      = d.messages.map MessageRow.receiver_id ++ [r.requester_user_id] := by
  simp [denyNotifyStep, sendPair, setRequestStatus]

theorem cancelNotifyStep_recv (sess : Session) (tid : Nat) (tn : String) (d : DB)
    (a : Attendee) :
    (cancelNotifyStep sess tid tn d a).messages.map MessageRow.receiver_id
      = d.messages.map MessageRow.receiver_id ++ [a.user_id] := by
  simp [cancelNotifyStep, sendPair]

theorem denyNotifyStep_requests (sess : Session) (tid : Nat) (d : DB) (r : JoinRequest) :
    (denyNotifyStep sess tid d r).session_join_requests
      = d.session_join_requests.map (fun r0 =>
          if r0.request_id == r.request_id
          then { r0 with status := RStatus.denied, responded_at := some d.now }
          else r0) := rfl

theorem denyNotifyStep_ids (sess : Session) (tid : Nat) (d : DB) (r : JoinRequest) :
    (denyNotifyStep sess tid d r).session_join_requests.map JoinRequest.request_id
      = d.session_join_requests.map JoinRequest.request_id := by
  rw [denyNotifyStep_requests, List.map_map]
  apply List.map_congr_left
  intro a _
  simp only [Function.comp]
  by_cases hb : (a.request_id == r.request_id) = true
  · rw [if_pos hb]
  · rw [if_neg hb]

theorem foldl_deny_ids (sess : Session) (tid : Nat) :
    ∀ (l : List JoinRequest) (d : DB),
      ((l.foldl (denyNotifyStep sess tid) d).session_join_requests.map
        JoinRequest.request_id)
        = d.session_join_requests.map JoinRequest.request_id := by
  intro l
  induction l with
  | nil => intro d; rfl
  | cons a rest ih =>
    intro d
    rw [List.foldl_cons, ih, denyNotifyStep_ids]

theorem denyNotifyStep_marks (sess : Session) (tid : Nat) (d : DB) (a : JoinRequest) :
    ∀ r0 ∈ (denyNotifyStep sess tid d a).session_join_requests,
      r0.request_id = a.request_id → r0.status = RStatus.denied := by
  intro r0 hr0 hid
  rw [denyNotifyStep_requests] at hr0
  obtain ⟨r1, hr1, hre⟩ := List.mem_map.mp hr0
  by_cases hb : (r1.request_id == a.request_id) = true
  · rw [if_pos hb] at hre
    rw [← hre]
  · rw [if_neg hb] at hre
    subst hre
    exact absurd (by simp [hid]) hb

theorem foldl_deny_preserves_denied (sess : Session) (tid : Nat) :
    ∀ (l : List JoinRequest) (d : DB) (i : Nat),
      (∀ r0 ∈ d.session_join_requests, r0.request_id = i → r0.status = RStatus.denied) →
      ∀ r0 ∈ (l.foldl (denyNotifyStep sess tid) d).session_join_requests,
        r0.request_id = i → r0.status = RStatus.denied := by
  intro l
  induction l with
  | nil => intro d i h; exact h
  | cons a rest ih =>
    intro d i h
    apply ih
    intro r0 hr0 hid
    rw [denyNotifyStep_requests] at hr0
    obtain ⟨r1, hr1, hre⟩ := List.mem_map.mp hr0
    by_cases hb : (r1.request_id == a.request_id) = true
    · rw [if_pos hb] at hre
      rw [← hre]
    · rw [if_neg hb] at hre
      subst hre
      exact h r1 hr1 hid

theorem foldl_deny_marks (sess : Session) (tid : Nat) :
    ∀ (l : List JoinRequest) (d : DB), ∀ a ∈ l,
      ∀ r0 ∈ (l.foldl (denyNotifyStep sess tid) d).session_join_requests,
        r0.request_id = a.request_id → r0.status = RStatus.denied := by
  intro l
  induction l with
  | nil => intro d a ha; cases ha
  | cons b rest ih =>
    intro d a ha r0 hr0 hid
    rcases List.mem_cons.mp ha with hab | harest
    · subst hab
      exact foldl_deny_preserves_denied sess tid rest _ a.request_id
        (denyNotifyStep_marks sess tid d a) r0 hr0 hid
    · exact ih (denyNotifyStep sess tid d b) a harest r0 hr0 hid

theorem foldl_cancel_requests (sess : Session) (tid : Nat) (tn : String) :
    ∀ (l : List Attendee) (d : DB),
      (l.foldl (cancelNotifyStep sess tid tn) d).session_join_requests
        = d.session_join_requests := by
  intro l
  induction l with
  | nil => intro d; rfl
  | cons a rest ih =>
    intro d
    rw [List.foldl_cons, ih]
    rfl

theorem pendingJoined_eq (db : DB) (sid : Nat)
    (hru : ∀ r ∈ db.session_join_requests, r.session_id = sid →
        r.status = RStatus.pending → (findUser db r.requester_user_id).isSome = true) :
    pendingJoined db sid = db.session_join_requests.filter
      (fun r => r.session_id == sid && r.status == RStatus.pending) := by
  unfold pendingJoined
  apply List.filter_eq_self.mpr
  intro r hr
  have hmem := List.mem_of_mem_filter hr
  have hcond := List.of_mem_filter hr
  simp only [Bool.and_eq_true, beq_iff_eq] at hcond
  exact hru r hmem hcond.1 hcond.2

theorem attendeesJoined_eq (db : DB) (sid : Nat)
    (hau : ∀ a ∈ db.session_attendees, a.session_id = sid →
        (findUser db a.user_id).isSome = true) :
    attendeesJoined db sid
      = db.session_attendees.filter (fun a => a.session_id == sid) := by
  unfold attendeesJoined
  apply List.filter_eq_self.mpr
  intro a ha
  have hmem := List.mem_of_mem_filter ha
  have hcond := List.of_mem_filter ha
  simp only [beq_iff_eq] at hcond
  exact hau a hmem hcond

theorem attendeesJoined_congr {d db : DB} (ha : d.session_attendees = db.session_attendees)
    (hu : d.users = db.users) (sid : Nat) :
    attendeesJoined d sid = attendeesJoined db sid := by
  unfold attendeesJoined findUser
  rw [ha, hu]

theorem filter_after_not {α : Type} (p : α → Bool) (l : List α) :
    (l.filter (fun a => !(p a))).filter p = [] := by
  rw [List.filter_filter]
  apply List.filter_eq_nil_iff.mpr
  intro a _
  simp

/-- C2: deleteSession by the owning tutor, on a store satisfying
referential integrity for requesters and attendees, succeeds; before any
deletion there is a mid state holding all the notifications — exactly one
message per pending requester followed by one per enrolled student, so
N + M in total — in which every formerly pending request is marked denied
and every enrollment row still exists; the final state is exactly the four
deletions applied to that mid state, leaving zero enrollment rows and zero
join-request rows for the session, with the N + M messages retained. -/
theorem delete_session_cascade (db : DB) (uid sid : Nat) (sess : Session)
    (hfs : findSession db sid = some sess) (hown : sess.tutor_id = uid)
    (hru : ∀ r ∈ db.session_join_requests, r.session_id = sid →
        r.status = RStatus.pending → (findUser db r.requester_user_id).isSome = true)
    (hau : ∀ a ∈ db.session_attendees, a.session_id = sid →
        (findUser db a.user_id).isSome = true) :
    (deleteSession db (some uid) sid).1.status = 200
    ∧ (∃ dbMid,
        (deleteSession db (some uid) sid).2 = deleteSessionRows dbMid sid
        ∧ dbMid.session_attendees = db.session_attendees
        ∧ dbMid.session_join_requests.map JoinRequest.request_id
            = db.session_join_requests.map JoinRequest.request_id
        ∧ (∀ r ∈ db.session_join_requests, r.session_id = sid →
            r.status = RStatus.pending →
            ∀ r' ∈ dbMid.session_join_requests,
              r'.request_id = r.request_id → r'.status = RStatus.denied)
        ∧ dbMid.messages.map MessageRow.receiver_id
            = db.messages.map MessageRow.receiver_id
              ++ ((db.session_join_requests.filter (fun r =>
                    r.session_id == sid && r.status == RStatus.pending)).map
                    JoinRequest.requester_user_id
                  ++ (db.session_attendees.filter (fun a => a.session_id == sid)).map
                    Attendee.user_id))
    ∧ (deleteSession db (some uid) sid).2.session_attendees.filter
        (fun a => a.session_id == sid) = []
    ∧ (deleteSession db (some uid) sid).2.session_join_requests.filter
        (fun r => r.session_id == sid) = []
    ∧ (deleteSession db (some uid) sid).2.messages.length
        = db.messages.length
          + ((db.session_join_requests.filter (fun r =>
                r.session_id == sid && r.status == RStatus.pending)).length
             + (db.session_attendees.filter (fun a => a.session_id == sid)).length) := by
  have hsucc := deleteSession_success_state db uid sid sess hfs hown
  have hpj := pendingJoined_eq db sid hru
  have hf1 := foldl_fields (denyNotifyStep sess uid)
    (fun d a => denyNotifyStep_fields sess uid d a) (pendingJoined db sid) db
  have haj : attendeesJoined ((pendingJoined db sid).foldl (denyNotifyStep sess uid) db) sid
      = db.session_attendees.filter (fun a => a.session_id == sid) := by
    rw [attendeesJoined_congr hf1.2.1 hf1.2.2.1 sid]
    exact attendeesJoined_eq db sid hau
  have hf2 := foldl_fields (cancelNotifyStep sess uid (nameOr db uid "The tutor"))
    (fun d a => cancelNotifyStep_fields sess uid _ d a)
    (attendeesJoined ((pendingJoined db sid).foldl (denyNotifyStep sess uid) db) sid)
    ((pendingJoined db sid).foldl (denyNotifyStep sess uid) db)
  have hrecv1 := foldl_recv (denyNotifyStep sess uid) JoinRequest.requester_user_id
    (fun d a => denyNotifyStep_recv sess uid d a) (pendingJoined db sid) db
  have hrecv2 := foldl_recv (cancelNotifyStep sess uid (nameOr db uid "The tutor"))
    Attendee.user_id (fun d a => cancelNotifyStep_recv sess uid _ d a)
    (attendeesJoined ((pendingJoined db sid).foldl (denyNotifyStep sess uid) db) sid)
    ((pendingJoined db sid).foldl (denyNotifyStep sess uid) db)
  have hreq2 := foldl_cancel_requests sess uid (nameOr db uid "The tutor")
    (attendeesJoined ((pendingJoined db sid).foldl (denyNotifyStep sess uid) db) sid)
    ((pendingJoined db sid).foldl (denyNotifyStep sess uid) db)
  have hrecvAll : ((attendeesJoined ((pendingJoined db sid).foldl (denyNotifyStep sess uid) db)
        sid).foldl (cancelNotifyStep sess uid (nameOr db uid "The tutor"))
        ((pendingJoined db sid).foldl (denyNotifyStep sess uid) db)).messages.map
          MessageRow.receiver_id
      = db.messages.map MessageRow.receiver_id
        ++ ((db.session_join_requests.filter (fun r =>
              r.session_id == sid && r.status == RStatus.pending)).map
              JoinRequest.requester_user_id
            ++ (db.session_attendees.filter (fun a => a.session_id == sid)).map
              Attendee.user_id) := by
    rw [hrecv2, hrecv1, haj, hpj, List.append_assoc]
  rw [hsucc]
  refine ⟨rfl, ⟨_, rfl, hf2.2.1.trans hf1.2.1, ?_, ?_, hrecvAll⟩, ?_, ?_, ?_⟩
  · rw [hreq2]
    exact (foldl_deny_ids sess uid (pendingJoined db sid) db).trans rfl
  · intro r hr hrs hrp r' hr' hid
    rw [hreq2] at hr'
    have hrmem : r ∈ pendingJoined db sid := by
      rw [hpj]
      apply List.mem_filter.mpr
      refine ⟨hr, ?_⟩
      simp [hrs, hrp]
    exact foldl_deny_marks sess uid (pendingJoined db sid) db r hrmem r' hr' hid
  · exact filter_after_not _ _
  · exact filter_after_not _ _
  · have hlen := congrArg List.length hrecvAll
    simp only [List.length_map, List.length_append] at hlen
    exact hlen

/-- Witness for C2 at a concrete store: the tutor deletes the session with
one pending request and one enrolled student; the response is 200 and the
final store keeps exactly the two notifications. -/
theorem delete_session_cascade_witness :
    (deleteSession dbDel (some 1) 10).1.status = 200
    ∧ (deleteSession dbDel (some 1) 10).2.session_attendees.filter
        (fun a => a.session_id == 10) = []
    ∧ (deleteSession dbDel (some 1) 10).2.session_join_requests.filter
        (fun r => r.session_id == 10) = []
    ∧ (deleteSession dbDel (some 1) 10).2.messages.length = 2 := by
  have h := delete_session_cascade dbDel 1 10 sessAlg (by decide) (by decide)
    (by decide) (by decide)
  exact ⟨h.1, h.2.2.1, h.2.2.2.1, h.2.2.2.2⟩

/-! ## createSession validation (towards C5 and C6) -/

/-- The validation-failure condition of createSession as the source
implements it: the claim's list plus an empty title (JS falsiness in the
missing-fields check), and with the course condition as the count
comparison the source performs (the count of matching tutor_courses rows
versus the number of requested courseIds, so duplicated courseIds also
fail). -/
def CreateFailCond (db : DB) (uid : Nat) (inp : CreateSessionInput) : Prop :=
  inp.title = "" ∨ 150 < (jsTrim inp.title).length ∨ inp.courseIds = []
  ∨ taughtMatchCount db uid inp.courseIds ≠ inp.courseIds.length
  ∨ (inp.sessionType ≠ "open" ∧ inp.sessionType ≠ "one_on_one")
  ∨ inp.startTime.parsed = none ∨ inp.endTime.parsed = none
  ∨ (∃ st, inp.startTime.parsed = some st ∧ st ≤ db.now)
  ∨ (∃ st en, inp.startTime.parsed = some st ∧ inp.endTime.parsed = some en ∧ en ≤ st)
  ∨ inp.capacity < 1 ∨ 50 < inp.capacity

theorem createSessionCheck_some_400 (db : DB) (uid : Nat) (inp : CreateSessionInput)
    (hrole : tutorRoleOk db uid = true)
    (hsr : inp.startTime.raw = "" → inp.startTime.parsed = none)
    (her : inp.endTime.raw = "" → inp.endTime.parsed = none)
    (r : Resp) (h : createSessionCheck db uid inp = some r) :
    r.status = 400 ∧ CreateFailCond db uid inp := by
  unfold createSessionCheck at h
  by_cases h1 : (inp.title = "" ∨ inp.sessionType = "" ∨ inp.startTime.raw = ""
      ∨ inp.endTime.raw = "" ∨ inp.capacity = 0)
  · rw [if_pos h1] at h
    cases h
    refine ⟨rfl, ?_⟩
    unfold CreateFailCond
    rcases h1 with ht | hty | hsraw | heraw | hcap
    · exact Or.inl ht
    · exact Or.inr (Or.inr (Or.inr (Or.inr (Or.inl
        ⟨by rw [hty]; decide, by rw [hty]; decide⟩))))
    · exact Or.inr (Or.inr (Or.inr (Or.inr (Or.inr (Or.inl (hsr hsraw))))))
    · exact Or.inr (Or.inr (Or.inr (Or.inr (Or.inr (Or.inr (Or.inl (her heraw)))))))
    · refine Or.inr (Or.inr (Or.inr (Or.inr (Or.inr (Or.inr (Or.inr (Or.inr (Or.inr
        (Or.inl (by omega))))))))))
  rw [if_neg h1] at h
  by_cases h2 : inp.courseIds.isEmpty = true
  · rw [if_pos h2] at h
    cases h
    exact ⟨rfl, Or.inr (Or.inr (Or.inl (List.isEmpty_iff.mp h2)))⟩
  rw [if_neg h2] at h
  by_cases h3 : 150 < (jsTrim inp.title).length
  · rw [if_pos h3] at h
    cases h
    exact ⟨rfl, Or.inr (Or.inl h3)⟩
  rw [if_neg h3] at h
  by_cases h4 : inp.sessionType ≠ "open" ∧ inp.sessionType ≠ "one_on_one"
  · rw [if_pos h4] at h
    cases h
    exact ⟨rfl, Or.inr (Or.inr (Or.inr (Or.inr (Or.inl h4))))⟩
  rw [if_neg h4] at h
  rw [if_neg (not_not_intro hrole)] at h
  by_cases h6 : taughtMatchCount db uid inp.courseIds ≠ inp.courseIds.length
  · rw [if_pos h6] at h
    cases h
    exact ⟨rfl, Or.inr (Or.inr (Or.inr (Or.inl h6)))⟩
  rw [if_neg h6] at h
  cases hst : inp.startTime.parsed with
  | none =>
    rw [hst] at h
    cases hen : inp.endTime.parsed with
    | none =>
      rw [hen] at h
      dsimp only at h
      cases h
      exact ⟨rfl, Or.inr (Or.inr (Or.inr (Or.inr (Or.inr (Or.inl hst)))))⟩
    | some en =>
      rw [hen] at h
      dsimp only at h
      cases h
      exact ⟨rfl, Or.inr (Or.inr (Or.inr (Or.inr (Or.inr (Or.inl hst)))))⟩
  | some st =>
    rw [hst] at h
    cases hen : inp.endTime.parsed with
    | none =>
      rw [hen] at h
      dsimp only at h
      cases h
      exact ⟨rfl, Or.inr (Or.inr (Or.inr (Or.inr (Or.inr (Or.inr (Or.inl hen))))))⟩
    | some en =>
      rw [hen] at h
      dsimp only at h
      by_cases h7 : st ≤ db.now
      · rw [if_pos h7] at h
        cases h
        exact ⟨rfl, Or.inr (Or.inr (Or.inr (Or.inr (Or.inr (Or.inr (Or.inr
          (Or.inl ⟨st, hst, h7⟩)))))))⟩
      rw [if_neg h7] at h
      by_cases h8 : en ≤ st
      · rw [if_pos h8] at h
        cases h
        exact ⟨rfl, Or.inr (Or.inr (Or.inr (Or.inr (Or.inr (Or.inr (Or.inr (Or.inr
          (Or.inl ⟨st, en, hst, hen, h8⟩))))))))⟩
      rw [if_neg h8] at h
      by_cases h9 : inp.capacity < 1 ∨ 50 < inp.capacity
      · rw [if_pos h9] at h
        cases h
        refine ⟨rfl, ?_⟩
        rcases h9 with hc1 | hc2
        · exact Or.inr (Or.inr (Or.inr (Or.inr (Or.inr (Or.inr (Or.inr (Or.inr (Or.inr
            (Or.inl hc1)))))))))
        · exact Or.inr (Or.inr (Or.inr (Or.inr (Or.inr (Or.inr (Or.inr (Or.inr (Or.inr
            (Or.inr hc2)))))))))
      rw [if_neg h9] at h
      cases h

theorem createSessionCheck_none_spec (db : DB) (uid : Nat) (inp : CreateSessionInput)
    (h : createSessionCheck db uid inp = none) : ¬ CreateFailCond db uid inp := by
  unfold createSessionCheck at h
  by_cases h1 : (inp.title = "" ∨ inp.sessionType = "" ∨ inp.startTime.raw = ""
      ∨ inp.endTime.raw = "" ∨ inp.capacity = 0)
  · rw [if_pos h1] at h; cases h
  rw [if_neg h1] at h
  by_cases h2 : inp.courseIds.isEmpty = true
  · rw [if_pos h2] at h; cases h
  rw [if_neg h2] at h
  by_cases h3 : 150 < (jsTrim inp.title).length
  · rw [if_pos h3] at h; cases h
  rw [if_neg h3] at h
  by_cases h4 : inp.sessionType ≠ "open" ∧ inp.sessionType ≠ "one_on_one"
  · rw [if_pos h4] at h; cases h
  rw [if_neg h4] at h
  by_cases h5 : ¬ tutorRoleOk db uid = true
  · rw [if_pos h5] at h; cases h
  rw [if_neg h5] at h
  by_cases h6 : taughtMatchCount db uid inp.courseIds ≠ inp.courseIds.length
  · rw [if_pos h6] at h; cases h
  rw [if_neg h6] at h
  cases hst : inp.startTime.parsed with
  | none =>
    rw [hst] at h
    cases hen : inp.endTime.parsed with
    | none => rw [hen] at h; dsimp only at h; cases h
    | some en => rw [hen] at h; dsimp only at h; cases h
  | some st =>
    rw [hst] at h
    cases hen : inp.endTime.parsed with
    | none => rw [hen] at h; dsimp only at h; cases h
    | some en =>
      rw [hen] at h
      dsimp only at h
      by_cases h7 : st ≤ db.now
      · rw [if_pos h7] at h; cases h
      rw [if_neg h7] at h
      by_cases h8 : en ≤ st
      · rw [if_pos h8] at h; cases h
      rw [if_neg h8] at h
      by_cases h9 : inp.capacity < 1 ∨ 50 < inp.capacity
      · rw [if_pos h9] at h; cases h
      intro hcon
      unfold CreateFailCond at hcon
      rcases hcon with ht | hlen | hcs | htc | hty | hsn | hen' | ⟨st', hst', hle⟩
        | ⟨st', en', hst', hen', hlee⟩ | hc1 | hc2
      · exact h1 (Or.inl ht)
      · exact h3 hlen
      · exact h2 (by rw [hcs]; rfl)
      · exact h6 htc
      · exact h4 hty
      · rw [hst] at hsn; cases hsn
      · rw [hen] at hen'; cases hen'
      · rw [hst] at hst'
        cases hst'
        exact h7 hle
      · rw [hst] at hst'
        rw [hen] at hen'
        cases hst'
        cases hen'
        exact h8 hlee
      · exact h9 (Or.inl hc1)
      · exact h9 (Or.inr hc2)

/-- A createSession input that passes every check on the sample store. -/
def goodInput : CreateSessionInput :=
  ⟨"Calc help", "open", [100], ⟨"2026-02-02T10:00:00", some 2000⟩,
    ⟨"2026-02-02T11:00:00", some 3000⟩, 5, some "Lib West"⟩

/-- The same input with an empty title. -/
def emptyTitleInput : CreateSessionInput := { goodInput with title := "" }

/-- The same input with the start instant equal to the current time. -/
def startNowInput : CreateSessionInput :=
  { goodInput with startTime := ⟨"2026-02-02T10:00:00", some 1000⟩ }

/-- C5 as stated is false: an empty title is rejected by the source's
missing-fields check although it violates none of the conditions the claim
lists (length, courses, kind, times, capacity are all in order). -/
theorem create_session_validation_counterexample :
    (createSession dbW (some 1) emptyTitleInput).1.status = 400
    ∧ ¬ 150 < (jsTrim emptyTitleInput.title).length
    ∧ emptyTitleInput.courseIds ≠ []
    ∧ (∀ c ∈ emptyTitleInput.courseIds, (⟨1, c⟩ : TutorCourse) ∈ dbW.tutor_courses)
    ∧ emptyTitleInput.sessionType = "open"
    ∧ emptyTitleInput.startTime.parsed = some 2000 ∧ dbW.now < 2000
    ∧ emptyTitleInput.endTime.parsed = some 3000 ∧ (2000 : Int) < 3000
    ∧ 1 ≤ emptyTitleInput.capacity ∧ emptyTitleInput.capacity ≤ 50 := by
  decide

/-- C5 amended: for a tutor caller (and a date library on which the empty
string is unparseable), createSession answers a validation failure exactly
under `CreateFailCond` — the claim's list extended with the empty title and
with the course condition as the source's count comparison; a successful
one_on_one creation stores capacity exactly 1; and a start equal to the
current time is rejected. -/
theorem create_session_validation_amended (db : DB) (uid : Nat) (inp : CreateSessionInput)
    (hrole : tutorRoleOk db uid = true)
    (hsr : inp.startTime.raw = "" → inp.startTime.parsed = none)
    (her : inp.endTime.raw = "" → inp.endTime.parsed = none) :
    ((createSession db (some uid) inp).1.status = 400 ↔ CreateFailCond db uid inp)
    ∧ ((createSession db (some uid) inp).1.isOk = true →
        inp.sessionType = "one_on_one" →
        (createSession db (some uid) inp).2.sessions
            = db.sessions ++ [newSessionRow db uid inp]
        ∧ (newSessionRow db uid inp).capacity = 1)
    ∧ (∀ st, inp.startTime.parsed = some st → st ≤ db.now →
        (createSession db (some uid) inp).1.status = 400) := by
  have hmain : (createSession db (some uid) inp).1.status = 400
      ↔ CreateFailCond db uid inp := by
    cases hchk : createSessionCheck db uid inp with
    | some r =>
      obtain ⟨h400, hcond⟩ := createSessionCheck_some_400 db uid inp hrole hsr her r hchk
      simp only [createSession, hchk]
      exact ⟨fun _ => hcond, fun _ => h400⟩
    | none =>
      have hn := createSessionCheck_none_spec db uid inp hchk
      simp only [createSession, hchk]
      constructor
      · intro h400
        have h' : (201 : Nat) = 400 := h400
        omega
      · intro hcon
        exact absurd hcon hn
  refine ⟨hmain, ?_, fun st hstp hle => hmain.mpr (Or.inr (Or.inr (Or.inr (Or.inr
    (Or.inr (Or.inr (Or.inr (Or.inl ⟨st, hstp, hle⟩))))))))⟩
  intro hok h11
  cases hchk : createSessionCheck db uid inp with
  | some r =>
    obtain ⟨h400, _⟩ := createSessionCheck_some_400 db uid inp hrole hsr her r hchk
    simp only [createSession, hchk] at hok
    have hfalse : r.isOk = false := by simp [Resp.isOk, h400]
    exact Bool.noConfusion (hfalse.symm.trans hok)
  | none =>
    simp only [createSession, hchk]
    refine ⟨by first | rfl | trivial, ?_⟩
    simp [newSessionRow, h11]

/-- Witness for the amended C5: on the sample store, a start instant equal
to the current time is rejected with a validation failure. -/
theorem create_session_validation_amended_witness :
    (createSession dbW (some 1) startNowInput).1.status = 400 :=
  (create_session_validation_amended dbW 1 startNowInput (by decide) (by decide)
    (by decide)).2.2 1000 (by decide) (by decide)

/-- C6 as stated is false: when the course-association INSERT throws after
the session INSERT succeeded, the call fails with the generic 500 envelope
yet the session row persists with zero course-association rows. -/
theorem create_session_atomicity_counterexample :
    (createSessionCourseInsertFails dbW (some 1) goodInput).1.status = 500
    ∧ (∃ s ∈ (createSessionCourseInsertFails dbW (some 1) goodInput).2.sessions,
        s.session_id = 11)
    ∧ (createSessionCourseInsertFails dbW (some 1) goodInput).2.session_courses.filter
        (fun c => c.session_id == 11) = [] := by
  decide

/-- C6 amended: the session row and its course-association rows are written
by two separate INSERTs with no transaction: on a fully successful run both
the session row and all of its session_courses rows exist, but on the run
where the course INSERT fails the session row persists alone and the call
reports the generic failure. -/
theorem create_session_two_inserts (db : DB) (uid : Nat) (inp : CreateSessionInput)
    (hpass : createSessionCheck db uid inp = none) :
    ((createSession db (some uid) inp).2.sessions
        = db.sessions ++ [newSessionRow db uid inp]
      ∧ (createSession db (some uid) inp).2.session_courses
        = db.session_courses ++ inp.courseIds.map (fun c => ⟨db.nextSessionId, c⟩))
    ∧ ((createSessionCourseInsertFails db (some uid) inp).1.status = 500
      ∧ (createSessionCourseInsertFails db (some uid) inp).2.sessions
        = db.sessions ++ [newSessionRow db uid inp]
      ∧ (createSessionCourseInsertFails db (some uid) inp).2.session_courses
        = db.session_courses) := by
  simp only [createSession, createSessionCourseInsertFails, hpass]
  refine ⟨⟨?_, ?_⟩, ?_, ?_, ?_⟩ <;> first | rfl | trivial

/-- Witness for the amended C6 at the sample store and input. -/
theorem create_session_two_inserts_witness :
    (createSession dbW (some 1) goodInput).2.sessions
        = dbW.sessions ++ [newSessionRow dbW 1 goodInput]
    ∧ (createSessionCourseInsertFails dbW (some 1) goodInput).2.session_courses
        = dbW.session_courses := by
  have h := create_session_two_inserts dbW 1 goodInput (by rfl)
  exact ⟨h.1.1, h.2.2.2⟩

/-! ## Response shapes (towards C9) -/

theorem sendSessionRequestRest_shape (db : DB) (stuId sid tid : Nat) (sess : Session)
    (m : Option String)
    (hok : (sendSessionRequestRest db stuId sid tid sess m).1.isOk = true) :
    getField (sendSessionRequestRest db stuId sid tid sess m).1.body "requestId" = none
    ∧ getField (sendSessionRequestRest db stuId sid tid sess m).1.body "messageId"
        = some (JVal.n (db.nextMessageId : Int)) := by
  unfold sendSessionRequestRest at hok ⊢
  by_cases h1 : isEnrolled db sid stuId = true
  · rw [if_pos h1] at hok
    exact Bool.noConfusion hok
  rw [if_neg h1] at hok ⊢
  cases hu : findUser db stuId with
  | none =>
    rw [hu] at hok
    dsimp only at hok
    exact Bool.noConfusion hok
  | some stu =>
    dsimp only
    exact ⟨rfl, rfl⟩

/-- C9 as stated is false: a successful deleteSession returns no
`notifiedCount` field (the count is embedded in the message text), the
create-join-request payload requires `tutorId` in addition to `sessionId`,
and its success body carries `messageId` (the notification message id), not
`requestId`. -/
theorem interface_shapes_counterexample :
    (deleteSession dbDel (some 1) 10).1.isOk = true
    ∧ getField (deleteSession dbDel (some 1) 10).1.body "notifiedCount" = none
    ∧ (sendSessionRequest dbW (some 3) (some 10) none none).1.status = 400
    ∧ (sendSessionRequest dbW (some 3) (some 10) (some 1) none).1.isOk = true
    ∧ getField (sendSessionRequest dbW (some 3) (some 10) (some 1) none).1.body
        "requestId" = none
    ∧ getField (sendSessionRequest dbW (some 3) (some 10) (some 1) none).1.body
        "messageId" = some (JVal.n 91) :=
  ⟨rfl, rfl, rfl, rfl, rfl, rfl⟩

/-- C9 amended: a successful delete-session response carries only the
success flag and a message string (no notifiedCount field); the
create-join-request operation requires both sessionId and tutorId and on
success returns a `messageId` field holding the id of the notification
message (no requestId field). -/
theorem interface_shapes_amended (db : DB) :
    (∀ uid sid, (deleteSession db (some uid) sid).1.isOk = true →
      getField (deleteSession db (some uid) sid).1.body "notifiedCount" = none)
    ∧ (∀ stuId sid m, sendSessionRequest db (some stuId) (some sid) none m
        = (jsonFail 400 "Session ID and Tutor ID are required", db))
    ∧ (∀ stuId sid tid m,
        (sendSessionRequest db (some stuId) (some sid) (some tid) m).1.isOk = true →
        getField (sendSessionRequest db (some stuId) (some sid) (some tid) m).1.body
            "requestId" = none
        ∧ getField (sendSessionRequest db (some stuId) (some sid) (some tid) m).1.body
            "messageId" = some (JVal.n (db.nextMessageId : Int))) := by
  refine ⟨?_, ?_, ?_⟩
  · intro uid sid hok
    cases hfs : findSession db sid with
    | none =>
      simp only [deleteSession, hfs] at hok
      exact Bool.noConfusion hok
    | some sess =>
      by_cases h1 : sess.tutor_id = uid
      · rw [deleteSession_success_state db uid sid sess hfs h1]
        rfl
      · simp only [deleteSession, hfs] at hok
        rw [if_pos (fun hcon => h1 hcon)] at hok
        exact Bool.noConfusion hok
  · intro stuId sid m
    rfl
  · intro stuId sid tid m hok
    cases hfs : findSession db sid with
    | none =>
      simp only [sendSessionRequest, hfs] at hok
      exact Bool.noConfusion hok
    | some sess =>
      simp only [sendSessionRequest, hfs] at hok ⊢
      by_cases h1 : sess.tutor_id ≠ tid
      · rw [if_pos h1] at hok
        exact Bool.noConfusion hok
      rw [if_neg h1] at hok ⊢
      by_cases h2 : stuId = sess.tutor_id
      · rw [if_pos h2] at hok
        exact Bool.noConfusion hok
      rw [if_neg h2] at hok ⊢
      by_cases h3 : (enrolledCount db sid : Int) ≥ sess.capacity
      · rw [if_pos h3] at hok
        exact Bool.noConfusion hok
      rw [if_neg h3] at hok ⊢
      cases hpr : findPairRequest db sid stuId with
      | none =>
        rw [hpr] at hok
        dsimp only at hok ⊢
        exact sendSessionRequestRest_shape db stuId sid tid sess m hok
      | some er =>
        rw [hpr] at hok
        dsimp only at hok ⊢
        by_cases h4 : er.status = RStatus.pending
        · rw [if_pos h4] at hok
          exact Bool.noConfusion hok
        rw [if_neg h4] at hok ⊢
        by_cases h5 : er.status = RStatus.accepted
        · rw [if_pos h5] at hok
          exact Bool.noConfusion hok
        rw [if_neg h5] at hok ⊢
        exact sendSessionRequestRest_shape (deletePairRequests db sid stuId)
          stuId sid tid sess m hok

/-- Witness for the amended C9 at the sample store: the success body of a
concrete create-join-request has no requestId and carries messageId 91. -/
theorem interface_shapes_amended_witness :
    getField (sendSessionRequest dbW (some 3) (some 10) (some 1) none).1.body
        "requestId" = none
    ∧ getField (sendSessionRequest dbW (some 3) (some 10) (some 1) none).1.body
        "messageId" = some (JVal.n (dbW.nextMessageId : Int)) :=
  (interface_shapes_amended dbW).2.2 3 10 1 none (by rfl)

/-- Witness for C8: on the sample store, deny with a reason records the
denied status, keeps the (empty) attendee table, and the message carries
the trimmed reason. -/
theorem deny_request_correct_witness :
    (denySessionRequest dbW (some 1) (some 5) (some " busy ")).2.session_join_requests
        = dbW.session_join_requests.map (fun r =>
            if r.request_id == 5
            then { r with status := RStatus.denied, responded_at := some dbW.now }
            else r)
    ∧ (∃ msg, (denySessionRequest dbW (some 1) (some 5) (some " busy ")).2.messages
          = dbW.messages ++ [msg]
        ∧ msg.sender_id = 1 ∧ msg.receiver_id = uSam.user_id
        ∧ (∀ rt, (some " busy " : Option String) = some rt → jsTrim rt ≠ "" →
            ∃ pre post, msg.message_content = pre ++ (jsTrim rt ++ post)))
    ∧ (denySessionRequest dbW (some 1) (some 5) (some " busy ")).2.session_attendees
        = dbW.session_attendees :=
  deny_request_correct dbW 1 5 ⟨5, 10, 2, 1, 90, RStatus.pending, none⟩ sessAlg uSam
    (some " busy ") (by decide) (by decide)

end EduGator
